import Mathlib

/-!
DoIP / UDS client: frame codec, request builders and the retry engine.

A shallow embedding of `doip_message.h`, `doip_message.cpp`, `doip_client.cpp`
and `uds_client.cpp`.

Conventions of the embedding:

* `uint8_t`, `uint16_t`, `uint32_t` values are natural numbers; a conversion to one of
  these types is written `toU8`, `toU16`, `toU32` (reduction modulo `2^8`, `2^16`, `2^32`).
  That a stored value respects its type is the predicate `Message.WF` / `Bytes`.
* `std::vector<uint8_t>` is `List Nat`.
* `size_t` is 64 bits wide, so `HEADER_SIZE + payloadLength` (a `uint32_t` widened to
  `size_t`) never wraps.
* `int` is `Int`.
* A C++ function that throws returns `Except Error _`; `Error` separates
  `std::runtime_error` thrown by the codec from its subclass `ConnectionError`.
* The socket is a deterministic table of results indexed by the number of earlier calls
  of the same primitive (`Transport`); the calls made are recorded in a `World`.
-/

namespace DoIP

/-! ## Integer conversions -/

/-- Conversion to `uint8_t`. -/
def toU8 (x : Nat) : Nat := x % 256

/-- Conversion to `uint16_t`. -/
def toU16 (x : Nat) : Nat := x % 65536

/-- Conversion to `uint32_t`. -/
def toU32 (x : Nat) : Nat := x % 4294967296

/-- Every element of the vector is a `uint8_t`. -/
def Bytes (l : List Nat) : Prop := ∀ x ∈ l, x < 256

instance (l : List Nat) : Decidable (Bytes l) := by
  unfold Bytes; infer_instance

/-! ## doip_message.h -/

def PROTOCOL_VERSION : Nat := 0x02
def INVERSE_PROTOCOL_VERSION : Nat := 0xFD
def HEADER_SIZE : Nat := 8

/-- The enumerators of `enum class PayloadType : uint16_t`; a `PayloadType` value is its
underlying 16-bit code, since every 16-bit value is a value of the enumeration type. -/
def PayloadType.GenericDoIPHeader_NACK : Nat := 0x0000
def PayloadType.VehicleIdentificationRequest : Nat := 0x0001
def PayloadType.VehicleIdentificationRequestWithEID : Nat := 0x0002
def PayloadType.VehicleIdentificationRequestWithVIN : Nat := 0x0003
def PayloadType.VehicleAnnouncementMessage : Nat := 0x0004
def PayloadType.RoutingActivationRequest : Nat := 0x0005
def PayloadType.RoutingActivationResponse : Nat := 0x0006
def PayloadType.AliveCheckRequest : Nat := 0x0007
def PayloadType.AliveCheckResponse : Nat := 0x0008
def PayloadType.DoIPEntityStatusRequest : Nat := 0x4001
def PayloadType.DoIPEntityStatusResponse : Nat := 0x4002
def PayloadType.DiagnosticMessage : Nat := 0x8001
def PayloadType.DiagnosticMessagePositiveAcknowledgement : Nat := 0x8002
def PayloadType.DiagnosticMessageNegativeAcknowledgement : Nat := 0x8003

/-- The fourteen enumerated codes, in declaration order. -/
def PayloadType.enumerated : List Nat :=
  [PayloadType.GenericDoIPHeader_NACK, PayloadType.VehicleIdentificationRequest,
   PayloadType.VehicleIdentificationRequestWithEID,
   PayloadType.VehicleIdentificationRequestWithVIN,
   PayloadType.VehicleAnnouncementMessage, PayloadType.RoutingActivationRequest,
   PayloadType.RoutingActivationResponse, PayloadType.AliveCheckRequest,
   PayloadType.AliveCheckResponse, PayloadType.DoIPEntityStatusRequest,
   PayloadType.DoIPEntityStatusResponse, PayloadType.DiagnosticMessage,
   PayloadType.DiagnosticMessagePositiveAcknowledgement,
   PayloadType.DiagnosticMessageNegativeAcknowledgement]

/-- The two exception classes: `std::runtime_error` (thrown by the codec) and its
subclass `DoIP::ConnectionError`. Only the latter is caught by the retry loop. -/
inductive Error where
  | runtime (what : String)
  | connection (what : String)
deriving DecidableEq, Repr

/-- The struct `DoIP::Message`. -/
structure Message where
  protocolVersion : Nat
  inverseProtocolVersion : Nat
  payloadType : Nat
  payloadLength : Nat
  payload : List Nat
deriving DecidableEq, Repr

deriving instance DecidableEq for Except

/-- Every field holds a value of its C++ type. -/
def Message.WF (m : Message) : Prop :=
  m.protocolVersion < 256 ∧ m.inverseProtocolVersion < 256 ∧ m.payloadType < 65536 ∧
    m.payloadLength < 4294967296 ∧ Bytes m.payload

instance (m : Message) : Decidable m.WF := by
  unfold Message.WF; infer_instance

/-- The default constructor `Message()`. -/
def Message.default : Message :=
  { protocolVersion := PROTOCOL_VERSION
    inverseProtocolVersion := INVERSE_PROTOCOL_VERSION
    payloadType := PayloadType.GenericDoIPHeader_NACK
    payloadLength := 0
    payload := [] }

/-- The constructor `Message(PayloadType type)`. -/
def Message.ofType (type : Nat) : Message :=
  { Message.default with payloadType := type }

/-- The method `Message::serialize`: a vector of `HEADER_SIZE + payload.size()` bytes, the
eight header bytes assigned one by one, the payload copied behind them. -/
def Message.serialize (m : Message) : List Nat :=
  [ m.protocolVersion,
    m.inverseProtocolVersion,
    toU8 ((toU16 m.payloadType >>> 8) &&& 0xFF),
    toU8 (toU16 m.payloadType &&& 0xFF) ]
  ++ (List.range 4).map (fun i => toU8 ((m.payloadLength >>> (24 - i * 8)) &&& 0xFF))
  ++ m.payload

/-- The static method `Message::deserialize`. -/
def Message.deserialize (data : List Nat) : Except Error Message :=
  if data.length < HEADER_SIZE then
    .error (.runtime "Insufficient data for DoIP header")
  else
    let msg : Message := Message.default
    let msg := { msg with protocolVersion := data.getD 0 0 }
    let msg := { msg with inverseProtocolVersion := data.getD 1 0 }
    let msg := { msg with payloadType := toU16 ((toU16 (data.getD 2 0) <<< 8) ||| data.getD 3 0) }
    let msg := { msg with payloadLength :=
      (toU32 (toU32 (data.getD 4 0) <<< 24) |||
       toU32 (toU32 (data.getD 5 0) <<< 16) |||
       toU32 (toU32 (data.getD 6 0) <<< 8) |||
       toU32 (data.getD 7 0)) }
    if data.length < HEADER_SIZE + msg.payloadLength then
      .error (.runtime "Insufficient data for DoIP payload")
    else
      .ok { msg with payload := (data.drop HEADER_SIZE).take msg.payloadLength }

/-! ## doip_message.cpp -/

/-- The function `payloadTypeToString`. -/
def payloadTypeToString (type : Nat) : String :=
  if type = PayloadType.GenericDoIPHeader_NACK then "Generic DoIP Header NACK"
  else if type = PayloadType.VehicleIdentificationRequest then "Vehicle Identification Request"
  else if type = PayloadType.VehicleIdentificationRequestWithEID then
    "Vehicle Identification Request with EID"
  else if type = PayloadType.VehicleIdentificationRequestWithVIN then
    "Vehicle Identification Request with VIN"
  else if type = PayloadType.VehicleAnnouncementMessage then "Vehicle Announcement Message"
  else if type = PayloadType.RoutingActivationRequest then "Routing Activation Request"
  else if type = PayloadType.RoutingActivationResponse then "Routing Activation Response"
  else if type = PayloadType.AliveCheckRequest then "Alive Check Request"
  else if type = PayloadType.AliveCheckResponse then "Alive Check Response"
  else if type = PayloadType.DoIPEntityStatusRequest then "DoIP Entity Status Request"
  else if type = PayloadType.DoIPEntityStatusResponse then "DoIP Entity Status Response"
  else if type = PayloadType.DiagnosticMessage then "Diagnostic Message"
  else if type = PayloadType.DiagnosticMessagePositiveAcknowledgement then
    "Diagnostic Message Positive Acknowledgement"
  else if type = PayloadType.DiagnosticMessageNegativeAcknowledgement then
    "Diagnostic Message Negative Acknowledgement"
  else "Unknown Payload Type"

/-! ## uds_client.h, uds_client.cpp: request construction -/

end DoIP

namespace UDS

/-- The enumerators of `enum class ServiceID : uint8_t`; a `ServiceID` value is its
underlying 8-bit code. -/
def ServiceID.DiagnosticSessionControl : Nat := 0x10
def ServiceID.ECUReset : Nat := 0x11
def ServiceID.SecurityAccess : Nat := 0x27
def ServiceID.CommunicationControl : Nat := 0x28
def ServiceID.TesterPresent : Nat := 0x3E
def ServiceID.AccessTimingParameter : Nat := 0x83
def ServiceID.SecuredDataTransmission : Nat := 0x84
def ServiceID.ControlDTCSetting : Nat := 0x85
def ServiceID.ResponseOnEvent : Nat := 0x86
def ServiceID.LinkControl : Nat := 0x87
def ServiceID.ReadDataByIdentifier : Nat := 0x22
def ServiceID.ReadMemoryByAddress : Nat := 0x23
def ServiceID.ReadScalingDataByIdentifier : Nat := 0x24
def ServiceID.ReadDataByPeriodicIdentifier : Nat := 0x2A
def ServiceID.DynamicallyDefineDataIdentifier : Nat := 0x2C
def ServiceID.WriteDataByIdentifier : Nat := 0x2E
def ServiceID.WriteMemoryByAddress : Nat := 0x3D
def ServiceID.ClearDiagnosticInformation : Nat := 0x14
def ServiceID.ReadDTCInformation : Nat := 0x19
def ServiceID.InputOutputControlByIdentifier : Nat := 0x2F
def ServiceID.RoutineControl : Nat := 0x31
def ServiceID.RequestDownload : Nat := 0x34
def ServiceID.RequestUpload : Nat := 0x35
def ServiceID.TransferData : Nat := 0x36
def ServiceID.RequestTransferExit : Nat := 0x37

/-- The struct `UDS::UDSMessage`. -/
structure UDSMessage where
  service : Nat
  data : List Nat
deriving DecidableEq, Repr

/-- The static method `UDSClient::createRequest`. -/
def UDSClient.createRequest (service : Nat) (data : List Nat) : UDSMessage :=
  { service := service, data := data }

/-- The method `UDSClient::diagnosticSessionControl`. -/
def UDSClient.diagnosticSessionControl (sessionType : Nat) : UDSMessage :=
  UDSClient.createRequest ServiceID.DiagnosticSessionControl [sessionType]

/-- The method `UDSClient::ecuReset`. -/
def UDSClient.ecuReset (resetType : Nat) : UDSMessage :=
  UDSClient.createRequest ServiceID.ECUReset [resetType]

/-- The method `UDSClient::readDataByIdentifier`. -/
def UDSClient.readDataByIdentifier (dataIdentifier : Nat) : UDSMessage :=
  UDSClient.createRequest ServiceID.ReadDataByIdentifier
    [ DoIP.toU8 ((dataIdentifier >>> 8) &&& 0xFF),
      DoIP.toU8 (dataIdentifier &&& 0xFF) ]

/-- The method `UDSClient::writeDataByIdentifier`. -/
def UDSClient.writeDataByIdentifier (dataIdentifier : Nat) (data : List Nat) : UDSMessage :=
  let payload : List Nat :=
    [ DoIP.toU8 ((dataIdentifier >>> 8) &&& 0xFF),
      DoIP.toU8 (dataIdentifier &&& 0xFF) ]
  let payload := payload ++ data
  UDSClient.createRequest ServiceID.WriteDataByIdentifier payload

/-- The method `UDSClient::routineControl`. -/
def UDSClient.routineControl (routineControlType routineIdentifier : Nat)
    (routineControlOptions : List Nat) : UDSMessage :=
  let payload : List Nat :=
    [ routineControlType,
      DoIP.toU8 ((routineIdentifier >>> 8) &&& 0xFF),
      DoIP.toU8 (routineIdentifier &&& 0xFF) ]
  let payload := payload ++ routineControlOptions
  UDSClient.createRequest ServiceID.RoutineControl payload

/-! ## uds_client.cpp: interpretation of responses -/

/-- The static method `UDSClient::getServiceName`. -/
def UDSClient.getServiceName (service : Nat) : String :=
  if service = ServiceID.DiagnosticSessionControl then "DiagnosticSessionControl"
  else if service = ServiceID.ECUReset then "ECUReset"
  else if service = ServiceID.SecurityAccess then "SecurityAccess"
  else if service = ServiceID.CommunicationControl then "CommunicationControl"
  else if service = ServiceID.TesterPresent then "TesterPresent"
  else if service = ServiceID.AccessTimingParameter then "AccessTimingParameter"
  else if service = ServiceID.SecuredDataTransmission then "SecuredDataTransmission"
  else if service = ServiceID.ControlDTCSetting then "ControlDTCSetting"
  else if service = ServiceID.ResponseOnEvent then "ResponseOnEvent"
  else if service = ServiceID.LinkControl then "LinkControl"
  else if service = ServiceID.ReadDataByIdentifier then "ReadDataByIdentifier"
  else if service = ServiceID.ReadMemoryByAddress then "ReadMemoryByAddress"
  else if service = ServiceID.ReadScalingDataByIdentifier then "ReadScalingDataByIdentifier"
  else if service = ServiceID.ReadDataByPeriodicIdentifier then "ReadDataByPeriodicIdentifier"
  else if service = ServiceID.DynamicallyDefineDataIdentifier then
    "DynamicallyDefineDataIdentifier"
  else if service = ServiceID.WriteDataByIdentifier then "WriteDataByIdentifier"
  else if service = ServiceID.WriteMemoryByAddress then "WriteMemoryByAddress"
  else if service = ServiceID.ClearDiagnosticInformation then "ClearDiagnosticInformation"
  else if service = ServiceID.ReadDTCInformation then "ReadDTCInformation"
  else if service = ServiceID.InputOutputControlByIdentifier then
    "InputOutputControlByIdentifier"
  else if service = ServiceID.RoutineControl then "RoutineControl"
  else if service = ServiceID.RequestDownload then "RequestDownload"
  else if service = ServiceID.RequestUpload then "RequestUpload"
  else if service = ServiceID.TransferData then "TransferData"
  else if service = ServiceID.RequestTransferExit then "RequestTransferExit"
  else "Unknown"

/-- What a stream in `std::hex` mode writes for a non-negative `int`: its base-16 digits,
lowercase, without leading zeros. -/
def hexDigits (n : Nat) : String := String.mk (Nat.toDigits 16 n)

/-- The effect of `std::setw(width)` with `std::setfill(fill)` on the next output: fill
characters on the left up to the width. -/
def setw (width : Nat) (fill : Char) (s : String) : String :=
  String.mk (List.replicate (width - s.length) fill) ++ s

/-- The output of `std::hex << std::setw(2) << std::setfill('0') << static_cast<int>(byte)`. -/
def hexByte (byte : Nat) : String := setw 2 '0' (hexDigits byte)

/-- The static method `UDSClient::formatHex`. -/
def UDSClient.formatHex (data : List Nat) : String :=
  data.foldl (fun oss byte => oss ++ hexByte byte ++ " ") ""

/-- The type `std::function<std::string(const std::vector<uint8_t>&)>` of a handler. -/
abbrev Handler : Type := List Nat → String

/-- The member `serviceHandlers`, a `std::unordered_map` from service to handler: the
lookup `find`, which is `none` for `end()`. -/
abbrev Handlers : Type := Nat → Option Handler

/-- The registry of a default-constructed `UDSClient`. -/
def Handlers.empty : Handlers := fun _ => none

/-- The method `UDSClient::addServiceHandler`: `serviceHandlers[service] = handler`. -/
def UDSClient.addServiceHandler (serviceHandlers : Handlers) (service : Nat)
    (handler : Handler) : Handlers :=
  fun key => if key = service then some handler else serviceHandlers key

/-- The end of a call of `interpretResponse` that returns no report: the unchecked read of
`response.data[0]` touched memory that cannot be read, and the process is stopped. -/
inductive AccessError where
  | fault
deriving DecidableEq, Repr

/-- The read `data[0]` through the unchecked `operator[]`. On a vector with a first byte it
is that byte. On an empty vector the read is outside the vector and the program does not
determine what it finds: `outside` is `some v` when the vector still owns storage and its
first byte is `v`, and `none` when there is nothing to read and the access faults. -/
def uncheckedFirst (data : List Nat) (outside : Option Nat) : Option Nat :=
  match data with
  | first :: _ => some first
  | [] => outside

/-- The method `UDSClient::interpretResponse`; `outside` is what a read of `data[0]` finds
when the vector is empty (see `uncheckedFirst`). -/
def UDSClient.interpretResponse (serviceHandlers : Handlers) (response : UDSMessage)
    (outside : Option Nat) : Except AccessError String :=
  let oss := "Service: " ++ UDSClient.getServiceName response.service ++ " (0x"
    ++ hexByte response.service ++ ")\n"
  let oss :=
    if ¬ response.data.isEmpty then oss ++ "Data: " ++ UDSClient.formatHex response.data ++ "\n"
    else oss
  match serviceHandlers response.service with
  | some handler => .ok (oss ++ handler response.data)
  | none =>
    match uncheckedFirst response.data outside with
    | none => .error .fault
    | some first =>
      if first = 0x00 then
        .ok (oss ++ "Status: Positive Response\n")
      else
        let oss := oss ++ "Status: Negative Response\n"
        if response.data.length > 1 then
          .ok (oss ++ "NRC: 0x" ++ hexByte (response.data.getD 1 0) ++ "\n")
        else
          .ok oss

end UDS

namespace DoIP

/-! ## doip_client.cpp: the socket and the connection state -/

/-- The answers of the socket, as a table: the `k`-th call of a primitive (counting from
zero, per primitive) with the given argument returns the listed result.
* `send k buf` is the return value of `send(sock, buf, size, 0)`;
* `poll k timeout` is the return value of `poll` and the `revents` it stores;
* `recv k len` is `none` when `recv` returns `-1`, otherwise the bytes it delivers, of
  which at most `len` are taken. -/
structure Transport where
  send : Nat → List Nat → Int
  poll : Nat → Int → Int × Nat
  recv : Nat → Nat → Option (List Nat)

/-- The calls made on the socket so far: the buffers handed to `send` (oldest first), the
number of `poll` calls, the number of `recv` calls, and the number of 100 ms sleeps. -/
structure World where
  sent : List (List Nat)
  polls : Nat
  recvs : Nat
  sleeps : Nat
deriving DecidableEq, Repr

/-- The call `std::this_thread::sleep_for(std::chrono::milliseconds(100))`. -/
def World.sleep (w : World) : World := { w with sleeps := w.sleeps + 1 }

/-- The fields of `DoIPClient::Impl`; `responseTimeout` is its millisecond count. -/
structure Impl where
  serverIP : String
  port : Nat
  sock : Int
  connected : Bool
  responseTimeout : Int
  retryCount : Int
deriving DecidableEq, Repr

/-- The constructor `Impl(serverIP, port)`. -/
def Impl.new (serverIP : String) (port : Nat) : Impl :=
  { serverIP := serverIP, port := port, sock := -1, connected := false,
    responseTimeout := 5000, retryCount := 3 }

/-- Conversion to `int` (32 bits, two's complement). -/
def toInt32 (x : Int) : Int := (x + 2147483648) % 4294967296 - 2147483648

/-- The event bit `POLLIN` of `poll.h`. -/
def POLLIN : Nat := 0x0001

/-- The method `Impl::sendMessage`. -/
def Impl.sendMessage (tr : Transport) (message : Message) (w : World) :
    Except Error Unit × World :=
  let serialized := message.serialize
  let w1 := { w with sent := w.sent ++ [serialized] }
  if tr.send w.sent.length serialized < 0 then
    (.error (.connection "Failed to send message"), w1)
  else
    (.ok (), w1)

/-- The method `Impl::receiveMessage`. -/
def Impl.receiveMessage (tr : Transport) (w : World) : Except Error Message × World :=
  let w1 := { w with recvs := w.recvs + 1 }
  match tr.recv w.recvs HEADER_SIZE with
  | none => (.error (.connection "Failed to receive message header"), w1)
  | some got =>
    let buffer := got.take HEADER_SIZE
    if buffer.length ≠ HEADER_SIZE then
      (.error (.connection "Failed to receive message header"), w1)
    else
      let payloadLength :=
        toU32 (toU32 (buffer.getD 4 0) <<< 24) |||
        toU32 (toU32 (buffer.getD 5 0) <<< 16) |||
        toU32 (toU32 (buffer.getD 6 0) <<< 8) |||
        toU32 (buffer.getD 7 0)
      let w2 := { w1 with recvs := w1.recvs + 1 }
      match tr.recv w1.recvs payloadLength with
      | none => (.error (.connection "Failed to receive message payload"), w2)
      | some got2 =>
        let body := got2.take payloadLength
        if body.length ≠ payloadLength then
          (.error (.connection "Failed to receive message payload"), w2)
        else
          (Message.deserialize (buffer ++ body), w2)

/-- The `try` block of `Impl::sendAndReceive`: `.ok (some r)` when it returns `r`,
`.ok none` when it is left without a return and without an exception (a positive `poll`
result whose `revents` lacks `POLLIN`), `.error e` when it throws `e`. -/
def Impl.attempt (c : Impl) (tr : Transport) (message : Message) (w : World) :
    Except Error (Option Message) × World :=
  match Impl.sendMessage tr message w with
  | (.error e, w1) => (.error e, w1)
  | (.ok _, w1) =>
    let pollResult := (tr.poll w1.polls (toInt32 c.responseTimeout)).1
    let revents := (tr.poll w1.polls (toInt32 c.responseTimeout)).2
    let w2 := { w1 with polls := w1.polls + 1 }
    if pollResult > 0 then
      if revents &&& POLLIN ≠ 0 then
        match Impl.receiveMessage tr w2 with
        | (.error e, w3) => (.error e, w3)
        | (.ok r, w3) => (.ok (some r), w3)
      else
        (.ok none, w2)
    else if pollResult = 0 then
      (.error (.connection "Response timeout"), w2)
    else
      (.error (.connection "Poll error"), w2)

/-- The `for` loop of `Impl::sendAndReceive` over the attempt numbers still to run, and
the `throw` behind it. A `ConnectionError` is rethrown on attempt `retryCount - 1` and
otherwise followed by the sleep; any other exception leaves the loop at once. -/
def Impl.sendAndReceiveLoop (c : Impl) (tr : Transport) (message : Message) :
    List Nat → World → Except Error Message × World
  | [], w => (.error (.connection "Max retry attempts reached"), w)
  | attempt :: rest, w =>
    match Impl.attempt c tr message w with
    | (.ok (some r), w1) => (.ok r, w1)
    | (.ok none, w1) => Impl.sendAndReceiveLoop c tr message rest w1
    | (.error (.connection what), w1) =>
      if (attempt : Int) = c.retryCount - 1 then
        (.error (.connection what), w1)
      else
        Impl.sendAndReceiveLoop c tr message rest w1.sleep
    | (.error e, w1) => (.error e, w1)

/-- The method `Impl::sendAndReceive`: `attempt` runs through `0, 1, ..` while
`attempt < retryCount`. -/
def Impl.sendAndReceive (c : Impl) (tr : Transport) (message : Message) (w : World) :
    Except Error Message × World :=
  Impl.sendAndReceiveLoop c tr message (List.range c.retryCount.toNat) w

/-! ## doip_client.cpp: the public operations -/

/-- The method `DoIPClient::ensureConnected`. -/
def DoIPClient.ensureConnected (c : Impl) : Except Error Unit :=
  if ¬ c.connected then .error (.connection "Not connected to DoIP server") else .ok ()

/-- The method `DoIPClient::sendAndReceive`. -/
def DoIPClient.sendAndReceive (c : Impl) (tr : Transport) (message : Message) (w : World) :
    Except Error Message × World :=
  match DoIPClient.ensureConnected c with
  | .error e => (.error e, w)
  | .ok _ => Impl.sendAndReceive c tr message w

/-- The setter `DoIPClient::setRetryCount`. -/
def DoIPClient.setRetryCount (c : Impl) (count : Int) : Impl :=
  { c with retryCount := count }

/-- The setter `DoIPClient::setResponseTimeout`. -/
def DoIPClient.setResponseTimeout (c : Impl) (timeout : Int) : Impl :=
  { c with responseTimeout := timeout }

/-- The request built by `DoIPClient::sendVehicleIdentificationRequest`. -/
def DoIPClient.vehicleIdentificationRequest : Message :=
  Message.ofType PayloadType.VehicleIdentificationRequest

/-- The method `DoIPClient::sendVehicleIdentificationRequest`. -/
def DoIPClient.sendVehicleIdentificationRequest (c : Impl) (tr : Transport) (w : World) :
    Except Error Message × World :=
  DoIPClient.sendAndReceive c tr DoIPClient.vehicleIdentificationRequest w

/-- The request built by `DoIPClient::sendRoutingActivationRequest`. -/
def DoIPClient.routingActivationRequest (sourceAddress : Nat) : Message :=
  let request := Message.ofType PayloadType.RoutingActivationRequest
  let request := { request with payload :=
    [ toU8 ((sourceAddress >>> 8) &&& 0xFF),
      toU8 (sourceAddress &&& 0xFF),
      0x00,
      0x00, 0x00, 0x00, 0x00 ] }
  { request with payloadLength := toU32 request.payload.length }

/-- The method `DoIPClient::sendRoutingActivationRequest`. -/
def DoIPClient.sendRoutingActivationRequest (c : Impl) (tr : Transport) (sourceAddress : Nat)
    (w : World) : Except Error Message × World :=
  DoIPClient.sendAndReceive c tr (DoIPClient.routingActivationRequest sourceAddress) w

/-- The request built by `DoIPClient::sendEntityStatusRequest`. -/
def DoIPClient.entityStatusRequest : Message :=
  Message.ofType PayloadType.DoIPEntityStatusRequest

/-- The method `DoIPClient::sendEntityStatusRequest`. -/
def DoIPClient.sendEntityStatusRequest (c : Impl) (tr : Transport) (w : World) :
    Except Error Message × World :=
  DoIPClient.sendAndReceive c tr DoIPClient.entityStatusRequest w

/-- The request built by `DoIPClient::sendDiagnosticMessage`: four `push_back`s, the
`insert` of the data, then the length field set from `payload.size()`. -/
def DoIPClient.diagnosticMessage (sourceAddress targetAddress : Nat) (data : List Nat) :
    Message :=
  let request := Message.ofType PayloadType.DiagnosticMessage
  let request := { request with payload :=
    request.payload ++ [toU8 ((sourceAddress >>> 8) &&& 0xFF)] }
  let request := { request with payload := request.payload ++ [toU8 (sourceAddress &&& 0xFF)] }
  let request := { request with payload :=
    request.payload ++ [toU8 ((targetAddress >>> 8) &&& 0xFF)] }
  let request := { request with payload := request.payload ++ [toU8 (targetAddress &&& 0xFF)] }
  let request := { request with payload := request.payload ++ data }
  { request with payloadLength := toU32 request.payload.length }

/-- The method `DoIPClient::sendDiagnosticMessage`. -/
def DoIPClient.sendDiagnosticMessage (c : Impl) (tr : Transport)
    (sourceAddress targetAddress : Nat) (data : List Nat) (w : World) :
    Except Error Message × World :=
  DoIPClient.sendAndReceive c tr (DoIPClient.diagnosticMessage sourceAddress targetAddress data) w

/-- The vector `udsData` built by `DoIPClient::sendUDSRequest`. -/
def DoIPClient.udsData (service : Nat) (data : List Nat) : List Nat :=
  let udsData : List Nat := []
  let udsData := udsData ++ [toU8 service]
  udsData ++ data

/-- The method `DoIPClient::sendUDSRequest`. -/
def DoIPClient.sendUDSRequest (c : Impl) (tr : Transport)
    (sourceAddress targetAddress service : Nat) (data : List Nat) (w : World) :
    Except Error Message × World :=
  DoIPClient.sendDiagnosticMessage c tr sourceAddress targetAddress
    (DoIPClient.udsData service data) w

/-- The method `DoIPClient::sendMessage`. -/
def DoIPClient.sendMessage (c : Impl) (tr : Transport) (message : Message) (w : World) :
    Except Error Unit × World :=
  match DoIPClient.ensureConnected c with
  | .error e => (.error e, w)
  | .ok _ => Impl.sendMessage tr message w

/-- The method `DoIPClient::receiveMessage`. -/
def DoIPClient.receiveMessage (c : Impl) (tr : Transport) (w : World) :
    Except Error Message × World :=
  match DoIPClient.ensureConnected c with
  | .error e => (.error e, w)
  | .ok _ => Impl.receiveMessage tr w

/-! ## doip_client.cpp: connect and disconnect -/

/-- A call that opens, sets up or closes the socket. -/
inductive SockCall where
  | socket
  | inet_pton (address : String)
  | connect (fd : Int) (port : Nat)
  | close (fd : Int)
deriving DecidableEq, Repr

/-- The answers of the calls made by `connect`, as a table indexed by the number of
socket calls made before: the return values of `socket(AF_INET, SOCK_STREAM, 0)`, of
`inet_pton(AF_INET, address, ..)` and of `::connect(fd, ..)`. -/
structure Network where
  socket : Nat → Int
  inet_pton : Nat → String → Int
  connect : Nat → Int → Nat → Int

/-- The method `Impl::connect`; `calls` is the list of socket calls made so far. -/
def Impl.connect (net : Network) (c : Impl) (calls : List SockCall) :
    Except Error Unit × Impl × List SockCall :=
  if c.connected then
    (.ok (), c, calls)
  else
    let c1 := { c with sock := net.socket calls.length }
    let calls1 := calls ++ [SockCall.socket]
    if c1.sock = -1 then
      (.error (.connection "Failed to create socket"), c1, calls1)
    else
      let calls2 := calls1 ++ [SockCall.inet_pton c1.serverIP]
      if net.inet_pton calls1.length c1.serverIP ≤ 0 then
        (.error (.connection "Invalid address/ Address not supported"), c1, calls2)
      else
        let calls3 := calls2 ++ [SockCall.connect c1.sock c1.port]
        if net.connect calls2.length c1.sock c1.port < 0 then
          (.error (.connection "Connection Failed"), c1, calls3)
        else
          (.ok (), { c1 with connected := true }, calls3)

/-- The method `Impl::disconnect`. -/
def Impl.disconnect (c : Impl) (calls : List SockCall) : Impl × List SockCall :=
  if c.connected then
    ({ c with connected := false }, calls ++ [SockCall.close c.sock])
  else
    (c, calls)

/-- The method `Impl::isConnected`. -/
def Impl.isConnected (c : Impl) : Bool := c.connected

end DoIP

/-! ## Arithmetic of the byte operations -/

namespace DoIP

theorem and_ff_eq_mod (x : Nat) : x &&& 0xFF = x % 256 :=
  Nat.and_pow_two_sub_one_eq_mod x 8

theorem shr_and_ff_eq (x k : Nat) : (x >>> k) &&& 0xFF = x / 2 ^ k % 256 := by
  rw [Nat.shiftRight_eq_div_pow]
  exact Nat.and_pow_two_sub_one_eq_mod _ 8

theorem or4_eq_add (a b c d : Nat) (hb : b < 256) (hc : c < 256) (hd : d < 256) :
    a <<< 24 ||| b <<< 16 ||| c <<< 8 ||| d = a * 2 ^ 24 + b * 2 ^ 16 + c * 2 ^ 8 + d := by
  simp only [Nat.shiftLeft_eq]
  have h1 : a * 2 ^ 24 + b * 2 ^ 16 = a * 2 ^ 24 ||| b * 2 ^ 16 := by
    have h := @Nat.mul_add_lt_is_or 24 (b * 2 ^ 16) (by omega) a
    rw [Nat.mul_comm (2 ^ 24) a] at h
    exact h
  have h2 : a * 2 ^ 24 + b * 2 ^ 16 + c * 2 ^ 8 = (a * 2 ^ 24 + b * 2 ^ 16) ||| c * 2 ^ 8 := by
    have h := @Nat.mul_add_lt_is_or 16 (c * 2 ^ 8) (by omega) (a * 2 ^ 8 + b)
    rw [show 2 ^ 16 * (a * 2 ^ 8 + b) = a * 2 ^ 24 + b * 2 ^ 16 by ring] at h
    exact h
  have h3 : a * 2 ^ 24 + b * 2 ^ 16 + c * 2 ^ 8 + d
      = (a * 2 ^ 24 + b * 2 ^ 16 + c * 2 ^ 8) ||| d := by
    have h := @Nat.mul_add_lt_is_or 8 d (by omega) (a * 2 ^ 16 + b * 2 ^ 8 + c)
    rw [show 2 ^ 8 * (a * 2 ^ 16 + b * 2 ^ 8 + c)
      = a * 2 ^ 24 + b * 2 ^ 16 + c * 2 ^ 8 by ring] at h
    exact h
  rw [h3, h2, h1]

theorem or2_eq_add (a b : Nat) (hb : b < 256) : a <<< 8 ||| b = a * 256 + b := by
  have h := @Nat.mul_add_lt_is_or 8 b (by omega) a
  rw [Nat.shiftLeft_eq, Nat.mul_comm]
  exact h.symm

theorem Bytes.getD_lt {l : List Nat} (h : Bytes l) (i : Nat) : l.getD i 0 < 256 := by
  by_cases hi : i < l.length
  · rw [List.getD_eq_getElem l 0 hi]
    exact h _ (List.getElem_mem hi)
  · rw [List.getD_eq_default l 0 (by omega)]
    decide

/-- The 32-bit length that `deserialize` and `receiveMessage` read from four bytes is
their big-endian value. -/
theorem length_word_eq (a b c d : Nat) (ha : a < 256) (hb : b < 256) (hc : c < 256)
    (hd : d < 256) :
    toU32 (toU32 a <<< 24) ||| toU32 (toU32 b <<< 16) ||| toU32 (toU32 c <<< 8) ||| toU32 d
      = a * 16777216 + b * 65536 + c * 256 + d := by
  have e1 : toU32 (toU32 a <<< 24) = a <<< 24 := by
    simp only [toU32, Nat.shiftLeft_eq]; omega
  have e2 : toU32 (toU32 b <<< 16) = b <<< 16 := by
    simp only [toU32, Nat.shiftLeft_eq]; omega
  have e3 : toU32 (toU32 c <<< 8) = c <<< 8 := by
    simp only [toU32, Nat.shiftLeft_eq]; omega
  have e4 : toU32 d = d := by
    simp only [toU32]; omega
  rw [e1, e2, e3, e4, or4_eq_add a b c d hb hc hd]
  norm_num

/-- The 16-bit code that `deserialize` reads from two bytes is their big-endian value. -/
theorem type_word_eq (a b : Nat) (ha : a < 256) (hb : b < 256) :
    toU16 ((toU16 a <<< 8) ||| b) = a * 256 + b := by
  have e1 : toU16 a = a := by simp only [toU16]; omega
  rw [e1, or2_eq_add a b hb]
  simp only [toU16]; omega

/-- The eight header bytes and the payload, with the bit operations of `serialize`
written as divisions and remainders. -/
theorem Message.serialize_eq (m : Message) :
    m.serialize =
      [ m.protocolVersion, m.inverseProtocolVersion,
        m.payloadType % 65536 / 256 % 256, m.payloadType % 256,
        m.payloadLength / 16777216 % 256, m.payloadLength / 65536 % 256,
        m.payloadLength / 256 % 256, m.payloadLength % 256 ] ++ m.payload := by
  have r : List.range 4 = [0, 1, 2, 3] := by decide
  simp only [Message.serialize, r, List.map, shr_and_ff_eq, and_ff_eq_mod, toU8, toU16,
    List.cons_append, List.nil_append, List.append_assoc]
  norm_num
  refine ⟨?_, ?_⟩ <;> omega

theorem Message.length_serialize (m : Message) :
    m.serialize.length = 8 + m.payload.length := by
  rw [Message.serialize_eq]
  simp only [List.length_append, List.length_cons, List.length_nil]

/-- What `deserialize` returns on a buffer of bytes that is long enough. -/
theorem Message.deserialize_eq_ok (b : List Nat) (hb : Bytes b) (h8 : 8 ≤ b.length)
    (hN : 8 + (b.getD 4 0 * 16777216 + b.getD 5 0 * 65536 + b.getD 6 0 * 256 + b.getD 7 0)
      ≤ b.length) :
    Message.deserialize b = .ok
      { protocolVersion := b.getD 0 0
        inverseProtocolVersion := b.getD 1 0
        payloadType := b.getD 2 0 * 256 + b.getD 3 0
        payloadLength :=
          b.getD 4 0 * 16777216 + b.getD 5 0 * 65536 + b.getD 6 0 * 256 + b.getD 7 0
        payload := (b.drop 8).take
          (b.getD 4 0 * 16777216 + b.getD 5 0 * 65536 + b.getD 6 0 * 256 + b.getD 7 0) } := by
  have hl := length_word_eq (b.getD 4 0) (b.getD 5 0) (b.getD 6 0) (b.getD 7 0)
    (hb.getD_lt 4) (hb.getD_lt 5) (hb.getD_lt 6) (hb.getD_lt 7)
  have ht := type_word_eq (b.getD 2 0) (b.getD 3 0) (hb.getD_lt 2) (hb.getD_lt 3)
  simp only [Message.deserialize, HEADER_SIZE, hl, ht]
  rw [if_neg (by omega), if_neg (by omega)]

theorem Message.bytes_serialize (m : Message) (hwf : m.WF) : Bytes m.serialize := by
  obtain ⟨h0, h1, _, _, hp⟩ := hwf
  rw [Message.serialize_eq]
  intro x hx
  simp only [List.cons_append, List.nil_append, List.mem_cons] at hx
  rcases hx with rfl | rfl | rfl | rfl | rfl | rfl | rfl | rfl | hx
  · exact h0
  · exact h1
  · omega
  · omega
  · omega
  · omega
  · omega
  · omega
  · exact hp x hx

theorem getD_take_drop (l : List Nat) (k n i : Nat) (hi : i < n) :
    ((l.drop k).take n).getD i 0 = l.getD (k + i) 0 := by
  simp only [List.getD_eq_getElem?_getD, List.getElem?_take, List.getElem?_drop, hi, if_true]

theorem Message.deserialize_eq_error_header (b : List Nat) (h8 : b.length < 8) :
    Message.deserialize b = .error (.runtime "Insufficient data for DoIP header") := by
  simp only [Message.deserialize, HEADER_SIZE]
  rw [if_pos h8]

theorem Message.deserialize_eq_error_payload (b : List Nat) (hb : Bytes b) (h8 : 8 ≤ b.length)
    (hN : b.length
      < 8 + (b.getD 4 0 * 16777216 + b.getD 5 0 * 65536 + b.getD 6 0 * 256 + b.getD 7 0)) :
    Message.deserialize b = .error (.runtime "Insufficient data for DoIP payload") := by
  have hl := length_word_eq (b.getD 4 0) (b.getD 5 0) (b.getD 6 0) (b.getD 7 0)
    (hb.getD_lt 4) (hb.getD_lt 5) (hb.getD_lt 6) (hb.getD_lt 7)
  simp only [Message.deserialize, HEADER_SIZE, hl]
  rw [if_neg (by omega), if_pos hN]

/-- Whatever the buffer, a frame returned by `deserialize` has as many payload bytes as its
length field says. -/
theorem Message.deserialize_length (b : List Nat) (m : Message)
    (h : Message.deserialize b = .ok m) : m.payload.length = m.payloadLength := by
  simp only [Message.deserialize, HEADER_SIZE] at h
  split at h
  · cases h
  · split at h
    · cases h
    · rename_i h1 h2
      injection h with h
      subst h
      simp only [List.length_take, List.length_drop]
      omega

/-! ## The frame codec -/

/-- C1. Round trip of the frame codec: a frame whose fields hold values of their types and
whose `payloadLength` field equals the number of payload bytes is returned unchanged, in
all five fields, by `deserialize` applied to its `serialize`. -/
theorem Message.deserialize_serialize (f : Message) (hwf : f.WF)
    (hlen : f.payloadLength = f.payload.length) :
    Message.deserialize f.serialize = .ok f := by
  have hb := Message.bytes_serialize f hwf
  have hs := Message.serialize_eq f
  obtain ⟨_, _, ht, hl, _⟩ := hwf
  have hN : f.payloadLength / 16777216 % 256 * 16777216 + f.payloadLength / 65536 % 256 * 65536
      + f.payloadLength / 256 % 256 * 256 + f.payloadLength % 256 = f.payloadLength := by
    omega
  have hT : f.payloadType % 65536 / 256 % 256 * 256 + f.payloadType % 256 = f.payloadType := by
    omega
  rw [Message.deserialize_eq_ok f.serialize hb]
  · rw [hs]
    simp only [List.cons_append, List.nil_append, List.getD_cons_zero, List.getD_cons_succ,
      List.drop_succ_cons, List.drop_zero, hN, hT]
    rw [hlen, List.take_length]
    cases f
    simp only at hlen
    simp only [hlen]
  · rw [Message.length_serialize]; omega
  · rw [Message.length_serialize, hs]
    simp only [List.cons_append, List.nil_append, List.getD_cons_zero, List.getD_cons_succ, hN]
    omega

/-- Witness of C1 on a diagnostic-message frame with a three-byte payload. -/
theorem Message.deserialize_serialize_witness :
    (Message.mk 0x02 0xFD 0x8001 3 [0x3E, 0x00, 0xFF]).WF ∧
    Message.deserialize (Message.mk 0x02 0xFD 0x8001 3 [0x3E, 0x00, 0xFF]).serialize
      = .ok (Message.mk 0x02 0xFD 0x8001 3 [0x3E, 0x00, 0xFF]) :=
  ⟨by decide, Message.deserialize_serialize _ (by decide) rfl⟩

/-- C2. Encode layout: the output of `serialize` has `8 + payload.size()` bytes; byte 0 is
the version, byte 1 the inverse version, bytes 2-3 the payload type code in big-endian,
bytes 4-7 the `payloadLength` field in big-endian, and the bytes from offset 8 on are the
payload. -/
theorem Message.serialize_layout (f : Message) (hwf : f.WF) :
    f.serialize.length = 8 + f.payload.length ∧
    f.serialize =
      [ f.protocolVersion, f.inverseProtocolVersion,
        f.payloadType / 256, f.payloadType % 256,
        f.payloadLength / 16777216, f.payloadLength / 65536 % 256,
        f.payloadLength / 256 % 256, f.payloadLength % 256 ] ++ f.payload ∧
    f.serialize.getD 2 0 * 256 + f.serialize.getD 3 0 = f.payloadType ∧
    f.serialize.getD 4 0 * 16777216 + f.serialize.getD 5 0 * 65536
      + f.serialize.getD 6 0 * 256 + f.serialize.getD 7 0 = f.payloadLength ∧
    f.serialize.drop 8 = f.payload ∧
    Bytes f.serialize := by
  have hb := Message.bytes_serialize f hwf
  obtain ⟨_, _, ht, hl, _⟩ := hwf
  refine ⟨Message.length_serialize f, ?_, ?_, ?_, ?_, hb⟩
  · rw [Message.serialize_eq]
    have e1 : f.payloadType % 65536 / 256 % 256 = f.payloadType / 256 := by omega
    have e2 : f.payloadLength / 16777216 % 256 = f.payloadLength / 16777216 := by omega
    rw [e1, e2]
  · rw [Message.serialize_eq]
    simp only [List.cons_append, List.nil_append, List.getD_cons_zero, List.getD_cons_succ]
    omega
  · rw [Message.serialize_eq]
    simp only [List.cons_append, List.nil_append, List.getD_cons_zero, List.getD_cons_succ]
    omega
  · rw [Message.serialize_eq]
    simp only [List.cons_append, List.nil_append, List.drop_succ_cons, List.drop_zero]

/-- Witness of C2 on a routing-activation response frame whose length field (258) needs
two bytes and differs from the payload size. -/
theorem Message.serialize_layout_witness :
    (Message.mk 0x02 0xFD 0x0006 258 [7, 9]).WF ∧
    (Message.mk 0x02 0xFD 0x0006 258 [7, 9]).serialize
      = [0x02, 0xFD, 0x00, 0x06, 0x00, 0x00, 0x01, 0x02, 7, 9] :=
  ⟨by decide, (Message.serialize_layout (Message.mk 0x02 0xFD 0x0006 258 [7, 9])
    (by decide)).2.1⟩

/-- C3, as stated, fails: on the frame with `payloadLength = 0` and the three payload bytes
`[1, 2, 3]` the header bytes 4-7 are `[0, 0, 0, 0]`, which is not the big-endian encoding
`[0, 0, 0, 3]` of the number of bytes that follow the header. -/
theorem Message.serialize_header_counterexample :
    (Message.mk 0x02 0xFD 0x8001 0 [1, 2, 3]).WF ∧
    ((Message.mk 0x02 0xFD 0x8001 0 [1, 2, 3]).serialize.drop 4).take 4 = [0, 0, 0, 0] ∧
    ((Message.mk 0x02 0xFD 0x8001 0 [1, 2, 3]).serialize.drop 8).length = 3 ∧
    (Message.mk 0x02 0xFD 0x8001 0 [1, 2, 3]).payload.length = 3 := by
  decide

/-- C3, amended. Header integrity: for a frame whose `payloadLength` field equals the number
of payload bytes, bytes 4-7 of the output of `serialize` are the big-endian 32-bit encoding
of the number of bytes in the payload, which is the number of bytes that follow the header;
the output length is 8 plus that number for every frame. -/
theorem Message.serialize_header_integrity (f : Message) (hwf : f.WF) :
    (f.payloadLength = f.payload.length →
      (f.serialize.drop 4).take 4 =
        [ f.payload.length / 16777216, f.payload.length / 65536 % 256,
          f.payload.length / 256 % 256, f.payload.length % 256 ] ∧
      f.serialize.getD 4 0 * 16777216 + f.serialize.getD 5 0 * 65536
        + f.serialize.getD 6 0 * 256 + f.serialize.getD 7 0 = f.payload.length) ∧
    (f.serialize.drop 8).length = f.payload.length ∧
    f.serialize.length = 8 + f.payload.length := by
  obtain ⟨_, _, ht, hl, _⟩ := hwf
  have e2 : f.payloadLength / 16777216 % 256 = f.payloadLength / 16777216 := by omega
  refine ⟨fun hlen => ⟨?_, ?_⟩, ?_, Message.length_serialize f⟩
  · rw [Message.serialize_eq, e2, hlen]
    simp only [List.cons_append, List.nil_append, List.drop_succ_cons, List.drop_zero,
      List.take_succ_cons, List.take_zero]
  · rw [Message.serialize_eq]
    simp only [List.cons_append, List.nil_append, List.getD_cons_zero, List.getD_cons_succ]
    omega
  · rw [Message.serialize_eq]
    simp only [List.cons_append, List.nil_append, List.drop_succ_cons, List.drop_zero]

/-- Witness of the amended C3 on a frame with a three-byte payload. -/
theorem Message.serialize_header_integrity_witness :
    (Message.mk 0x02 0xFD 0x8001 3 [1, 2, 3]).WF ∧
    ((Message.mk 0x02 0xFD 0x8001 3 [1, 2, 3]).serialize.drop 4).take 4 = [0, 0, 0, 3] :=
  ⟨by decide, ((Message.serialize_header_integrity (Message.mk 0x02 0xFD 0x8001 3 [1, 2, 3])
    (by decide)).1 rfl).1⟩

/-- C4. Incomplete-data rejection: on a buffer `b` of bytes, `deserialize` fails exactly
when `b` has fewer than 8 bytes or fewer than `8 + N` bytes, `N` the big-endian value of
`b[4..7]`; a failure returns no frame, and a success returns a payload of exactly `N`
bytes, the bytes `b[8..8+N)`. -/
theorem Message.deserialize_fails_iff (b : List Nat) (hb : Bytes b) :
    ((∃ e, Message.deserialize b = .error e) ↔
      (b.length < 8 ∨ b.length
        < 8 + (b.getD 4 0 * 16777216 + b.getD 5 0 * 65536 + b.getD 6 0 * 256 + b.getD 7 0))) ∧
    ((∃ e, Message.deserialize b = .error e) → ∀ m, Message.deserialize b ≠ .ok m) ∧
    (∀ m, Message.deserialize b = .ok m →
      m.payload.length
        = b.getD 4 0 * 16777216 + b.getD 5 0 * 65536 + b.getD 6 0 * 256 + b.getD 7 0 ∧
      m.payload = (b.drop 8).take
        (b.getD 4 0 * 16777216 + b.getD 5 0 * 65536 + b.getD 6 0 * 256 + b.getD 7 0) ∧
      ∀ i, i < b.getD 4 0 * 16777216 + b.getD 5 0 * 65536 + b.getD 6 0 * 256 + b.getD 7 0 →
        m.payload.getD i 0 = b.getD (8 + i) 0) := by
  by_cases h8 : b.length < 8
  · have he := Message.deserialize_eq_error_header b h8
    refine ⟨⟨fun _ => Or.inl h8, fun _ => ⟨_, he⟩⟩, ?_, ?_⟩
    · intro _ m hm
      rw [he] at hm
      cases hm
    · intro m hm
      rw [he] at hm
      cases hm
  · by_cases hN : b.length
        < 8 + (b.getD 4 0 * 16777216 + b.getD 5 0 * 65536 + b.getD 6 0 * 256 + b.getD 7 0)
    · have he := Message.deserialize_eq_error_payload b hb (by omega) hN
      refine ⟨⟨fun _ => Or.inr hN, fun _ => ⟨_, he⟩⟩, ?_, ?_⟩
      · intro _ m hm
        rw [he] at hm
        cases hm
      · intro m hm
        rw [he] at hm
        cases hm
    · have ho := Message.deserialize_eq_ok b hb (by omega) (by omega)
      refine ⟨⟨?_, ?_⟩, ?_, ?_⟩
      · rintro ⟨e, he⟩
        rw [ho] at he
        cases he
      · rintro (h | h)
        · exact absurd h h8
        · exact absurd h hN
      · rintro ⟨e, he⟩
        rw [ho] at he
        cases he
      · intro m hm
        rw [ho] at hm
        injection hm with hm
        subst hm
        refine ⟨?_, rfl, ?_⟩
        · simp only [List.length_take, List.length_drop]
          omega
        · intro i hi
          exact getD_take_drop b 8 _ i hi

/-- Witness of C4 on an 11-byte buffer whose header declares a two-byte payload. -/
theorem Message.deserialize_fails_iff_witness :
    Bytes [0x02, 0xFD, 0x80, 0x01, 0, 0, 0, 2, 7, 8, 9] ∧
    ∀ m, Message.deserialize [0x02, 0xFD, 0x80, 0x01, 0, 0, 0, 2, 7, 8, 9] = .ok m →
      m.payload = [7, 8] := by
  refine ⟨by decide, fun m hm => ?_⟩
  exact ((Message.deserialize_fails_iff [0x02, 0xFD, 0x80, 0x01, 0, 0, 0, 2, 7, 8, 9]
    (by decide)).2.2 m hm).2.1

/-- C5. Unknown payload types decode rather than fail: on a buffer of bytes with a complete
payload whose bytes 2-3 hold the 16-bit code `c` in big-endian, `deserialize` succeeds, the
decoded payload type is `c`, and serializing the result gives the same bytes 2-3; a code
that is none of the fourteen enumerated ones is reported by `payloadTypeToString` as
"Unknown Payload Type". -/
theorem Message.deserialize_any_type (c : Nat) (b : List Nat) (hc : c < 65536) (hb : Bytes b)
    (h8 : 8 ≤ b.length)
    (hN : 8 + (b.getD 4 0 * 16777216 + b.getD 5 0 * 65536 + b.getD 6 0 * 256 + b.getD 7 0)
      ≤ b.length)
    (h2 : b.getD 2 0 = c / 256) (h3 : b.getD 3 0 = c % 256) :
    (∃ m, Message.deserialize b = .ok m ∧ m.payloadType = c ∧
      m.serialize.getD 2 0 = b.getD 2 0 ∧ m.serialize.getD 3 0 = b.getD 3 0) ∧
    (c ∉ PayloadType.enumerated → payloadTypeToString c = "Unknown Payload Type") := by
  constructor
  · refine ⟨_, Message.deserialize_eq_ok b hb h8 hN, ?_, ?_, ?_⟩
    · simp only [h2, h3]
      omega
    · rw [Message.serialize_eq]
      simp only [List.cons_append, List.nil_append, List.getD_cons_zero, List.getD_cons_succ,
        h2, h3]
      omega
    · rw [Message.serialize_eq]
      simp only [List.cons_append, List.nil_append, List.getD_cons_zero, List.getD_cons_succ,
        h2, h3]
      omega
  · intro hne
    simp only [PayloadType.enumerated, List.mem_cons, List.mem_singleton, List.not_mem_nil,
      or_false, not_or] at hne
    obtain ⟨n1, n2, n3, n4, n5, n6, n7, n8, n9, n10, n11, n12, n13, n14⟩ := hne
    simp only [payloadTypeToString, n1, n2, n3, n4, n5, n6, n7, n8, n9, n10, n11, n12, n13,
      n14, if_false]

/-- Witness of C5 on the unassigned code `0x1234`. -/
theorem Message.deserialize_any_type_witness :
    (∃ m, Message.deserialize [0x02, 0xFD, 0x12, 0x34, 0, 0, 0, 1, 0xEE] = .ok m ∧
      m.payloadType = 0x1234 ∧
      m.serialize.getD 2 0 = 0x12 ∧ m.serialize.getD 3 0 = 0x34) ∧
    (0x1234 ∉ PayloadType.enumerated → payloadTypeToString 0x1234 = "Unknown Payload Type") :=
  Message.deserialize_any_type 0x1234 [0x02, 0xFD, 0x12, 0x34, 0, 0, 0, 1, 0xEE]
    (by decide) (by decide) (by decide) (by decide) (by decide) (by decide)

/-! ## The request builders -/

theorem DoIPClient.diagnosticMessage_eq (s t : Nat) (d : List Nat) :
    DoIPClient.diagnosticMessage s t d =
      { protocolVersion := 0x02
        inverseProtocolVersion := 0xFD
        payloadType := 0x8001
        payloadLength := (4 + d.length) % 4294967296
        payload := [s / 256 % 256, s % 256, t / 256 % 256, t % 256] ++ d } := by
  simp only [DoIPClient.diagnosticMessage, Message.ofType, Message.default, PROTOCOL_VERSION,
    INVERSE_PROTOCOL_VERSION, PayloadType.DiagnosticMessage, toU8, toU32, and_ff_eq_mod,
    shr_and_ff_eq, List.nil_append, List.cons_append, List.length_cons, List.length_append,
    List.length_nil, List.append_assoc, Message.mk.injEq, true_and]
  norm_num
  omega

theorem DoIPClient.diagnosticMessage_lengths (s t n : Nat) (d : List Nat)
    (hn : d.length = n) :
    (DoIPClient.diagnosticMessage s t d).payload.length = 4 + n ∧
    (DoIPClient.diagnosticMessage s t d).payloadLength = (4 + n) % 4294967296 := by
  rw [DoIPClient.diagnosticMessage_eq]
  subst hn
  constructor <;> simp only [List.length_append, List.length_cons, List.length_nil]

/-- C6, as stated, fails: for a data sequence of `2^32 - 4` bytes the frame built by
`sendDiagnosticMessage` has a payload of `2^32` bytes and the length field 0, the size
converted to `uint32_t`. -/
theorem DoIPClient.diagnosticMessage_length_counterexample :
    (DoIPClient.diagnosticMessage 0x0E80 0x0EE0
      (List.replicate 4294967292 0)).payload.length = 4294967296 ∧
    (DoIPClient.diagnosticMessage 0x0E80 0x0EE0
      (List.replicate 4294967292 0)).payloadLength = 0 := by
  exact DoIPClient.diagnosticMessage_lengths 0x0E80 0x0EE0 4294967292
    (List.replicate 4294967292 0) (List.length_replicate _ _)

/-- C6, amended. Frame length invariant: `payload.size() == payloadLength` holds for the
default and the typed constructor, for every frame returned by `deserialize`, for the
vehicle-identification and entity-status requests, for the routing-activation request of
every source address, and for the diagnostic-message and UDS requests of every source
address, target address, service and data sequence whose payload (4, respectively 5, bytes
more than the data) has fewer than `2^32` bytes. -/
theorem Message.length_invariant (type s t sid : Nat) (d b : List Nat) :
    Message.default.payload.length = Message.default.payloadLength ∧
    (Message.ofType type).payload.length = (Message.ofType type).payloadLength ∧
    (∀ m, Message.deserialize b = .ok m → m.payload.length = m.payloadLength) ∧
    DoIPClient.vehicleIdentificationRequest.payload.length
      = DoIPClient.vehicleIdentificationRequest.payloadLength ∧
    (DoIPClient.routingActivationRequest s).payload.length
      = (DoIPClient.routingActivationRequest s).payloadLength ∧
    DoIPClient.entityStatusRequest.payload.length
      = DoIPClient.entityStatusRequest.payloadLength ∧
    (4 + d.length < 4294967296 →
      (DoIPClient.diagnosticMessage s t d).payload.length
        = (DoIPClient.diagnosticMessage s t d).payloadLength) ∧
    (5 + d.length < 4294967296 →
      (DoIPClient.diagnosticMessage s t (DoIPClient.udsData sid d)).payload.length
        = (DoIPClient.diagnosticMessage s t (DoIPClient.udsData sid d)).payloadLength) := by
  refine ⟨rfl, rfl, fun m hm => Message.deserialize_length b m hm, rfl, rfl, rfl, ?_, ?_⟩
  · intro h
    rw [DoIPClient.diagnosticMessage_eq]
    simp only [List.length_append, List.length_cons, List.length_nil]
    omega
  · intro h
    rw [DoIPClient.diagnosticMessage_eq]
    simp only [DoIPClient.udsData, List.length_append, List.length_cons, List.length_nil]
    omega

/-- Witness of the amended C6: the received buffer and the UDS request of the VIN read. -/
theorem Message.length_invariant_witness :
    (∀ m, Message.deserialize [0x02, 0xFD, 0x80, 0x01, 0, 0, 0, 2, 7, 8, 9] = .ok m →
      m.payload.length = m.payloadLength) ∧
    (DoIPClient.diagnosticMessage 0x0E80 0x0EE0 [0x22, 0xF1, 0x90]).payload.length
      = (DoIPClient.diagnosticMessage 0x0E80 0x0EE0 [0x22, 0xF1, 0x90]).payloadLength ∧
    (DoIPClient.diagnosticMessage 0x0E80 0x0EE0 (DoIPClient.udsData 0x22 [0xF1, 0x90])).payload.length
      = (DoIPClient.diagnosticMessage 0x0E80 0x0EE0
          (DoIPClient.udsData 0x22 [0xF1, 0x90])).payloadLength :=
  ⟨(Message.length_invariant 0 0 0 0 [] [0x02, 0xFD, 0x80, 0x01, 0, 0, 0, 2, 7, 8, 9]).2.2.1,
   (Message.length_invariant 0 0x0E80 0x0EE0 0 [0x22, 0xF1, 0x90] []).2.2.2.2.2.2.1 (by decide),
   (Message.length_invariant 0 0x0E80 0x0EE0 0x22 [0xF1, 0x90] []).2.2.2.2.2.2.2 (by decide)⟩

/-- C7. Diagnostic-message payload layout: `sendUDSRequest(s, t, sid, d)` hands to
`sendAndReceive` a frame of payload type `DiagnosticMessage` (0x8001) with payload
`[s>>8, s&0xFF, t>>8, t&0xFF, sid] ++ d`, and `sendDiagnosticMessage(s, t, d)` one with
payload `[s>>8, s&0xFF, t>>8, t&0xFF] ++ d`. -/
theorem DoIPClient.sendUDSRequest_payload (s t sid : Nat) (d : List Nat)
    (hs : s < 65536) (ht : t < 65536) (hsid : sid < 256) :
    (∃ f : Message,
      (∀ c tr w, DoIPClient.sendUDSRequest c tr s t sid d w
        = DoIPClient.sendAndReceive c tr f w) ∧
      f.payloadType = 0x8001 ∧
      f.payload = [s >>> 8, s &&& 0xFF, t >>> 8, t &&& 0xFF, sid] ++ d) ∧
    (∃ f : Message,
      (∀ c tr w, DoIPClient.sendDiagnosticMessage c tr s t d w
        = DoIPClient.sendAndReceive c tr f w) ∧
      f.payloadType = 0x8001 ∧
      f.payload = [s >>> 8, s &&& 0xFF, t >>> 8, t &&& 0xFF] ++ d) := by
  have e1 : s >>> 8 = s / 256 % 256 := by
    rw [Nat.shiftRight_eq_div_pow]; omega
  have e2 : t >>> 8 = t / 256 % 256 := by
    rw [Nat.shiftRight_eq_div_pow]; omega
  have e3 : sid % 256 = sid := by omega
  constructor
  · refine ⟨DoIPClient.diagnosticMessage s t (DoIPClient.udsData sid d), fun _ _ _ => rfl, ?_, ?_⟩
    · rw [DoIPClient.diagnosticMessage_eq]
    · rw [DoIPClient.diagnosticMessage_eq]
      simp only [DoIPClient.udsData, toU8, e1, e2, e3, and_ff_eq_mod, List.nil_append,
        List.cons_append]
  · refine ⟨DoIPClient.diagnosticMessage s t d, fun _ _ _ => rfl, ?_, ?_⟩
    · rw [DoIPClient.diagnosticMessage_eq]
    · rw [DoIPClient.diagnosticMessage_eq]
      simp only [e1, e2, and_ff_eq_mod]

/-- Witness of C7, the VIN read of `main`: the request `readDataByIdentifier(0xF190)` sent
with source `0x0E80` and target `0x0EE0` travels as the diagnostic-message payload
`[0x0E, 0x80, 0x0E, 0xE0, 0x22, 0xF1, 0x90]`. -/
theorem DoIPClient.sendUDSRequest_payload_witness :
    ∃ f : Message,
      (∀ c tr w, DoIPClient.sendUDSRequest c tr 0x0E80 0x0EE0
          (UDS.UDSClient.readDataByIdentifier 0xF190).service
          (UDS.UDSClient.readDataByIdentifier 0xF190).data w
        = DoIPClient.sendAndReceive c tr f w) ∧
      f.payloadType = 0x8001 ∧
      f.payload = [0x0E, 0x80, 0x0E, 0xE0, 0x22, 0xF1, 0x90] :=
  (DoIPClient.sendUDSRequest_payload 0x0E80 0x0EE0
    (UDS.UDSClient.readDataByIdentifier 0xF190).service
    (UDS.UDSClient.readDataByIdentifier 0xF190).data
    (by decide) (by decide) (by decide)).1

/-- C8. Routing-activation request wire bytes: for every 16-bit source address `s` the
frame that `sendRoutingActivationRequest(s)` hands to `sendAndReceive` serializes to the
15 bytes `02 FD 00 05 00 00 00 07 s>>8 s&0xFF 00 00 00 00 00`, where the inverse version
`0xFD` is the bitwise complement of the version `0x02`. -/
theorem DoIPClient.routingActivationRequest_bytes (s : Nat) (hs : s < 65536) :
    (∀ c tr w, DoIPClient.sendRoutingActivationRequest c tr s w
      = DoIPClient.sendAndReceive c tr (DoIPClient.routingActivationRequest s) w) ∧
    (DoIPClient.routingActivationRequest s).serialize =
      [0x02, 0xFD, 0x00, 0x05, 0x00, 0x00, 0x00, 0x07, s >>> 8, s &&& 0xFF,
       0x00, 0x00, 0x00, 0x00, 0x00] ∧
    (DoIPClient.routingActivationRequest s).serialize.length = 15 ∧
    INVERSE_PROTOCOL_VERSION = PROTOCOL_VERSION ^^^ 0xFF := by
  have e1 : s >>> 8 = s / 256 % 256 := by
    rw [Nat.shiftRight_eq_div_pow]; omega
  refine ⟨fun _ _ _ => rfl, ?_, ?_, by decide⟩
  · rw [Message.serialize_eq]
    simp only [DoIPClient.routingActivationRequest, Message.ofType, Message.default,
      PROTOCOL_VERSION, INVERSE_PROTOCOL_VERSION, PayloadType.RoutingActivationRequest, toU8,
      toU32, and_ff_eq_mod, shr_and_ff_eq, e1, List.length_cons, List.length_nil,
      List.cons_append, List.nil_append]
    norm_num
  · rw [Message.length_serialize]
    rfl

/-- Witness of C8 at the tester address `0x0E80` used by `main`. -/
theorem DoIPClient.routingActivationRequest_bytes_witness :
    (DoIPClient.routingActivationRequest 0x0E80).serialize =
      [0x02, 0xFD, 0x00, 0x05, 0x00, 0x00, 0x00, 0x07, 0x0E, 0x80,
       0x00, 0x00, 0x00, 0x00, 0x00] :=
  (DoIPClient.routingActivationRequest_bytes 0x0E80 (by decide)).2.1

/-! ## The retry loop -/

theorem Impl.receiveMessage_world (tr : Transport) (w : World) :
    (Impl.receiveMessage tr w).2.sent = w.sent ∧
    (Impl.receiveMessage tr w).2.sleeps = w.sleeps ∧
    (Impl.receiveMessage tr w).2.polls = w.polls := by
  unfold Impl.receiveMessage
  split
  · exact ⟨rfl, rfl, rfl⟩
  · dsimp only
    split
    · exact ⟨rfl, rfl, rfl⟩
    · split
      · exact ⟨rfl, rfl, rfl⟩
      · split <;> exact ⟨rfl, rfl, rfl⟩

/-- Every pass through the `try` block hands the serialized request to `send` exactly once
and never sleeps. -/
theorem Impl.attempt_world (c : Impl) (tr : Transport) (message : Message) (w : World) :
    (Impl.attempt c tr message w).2.sent = w.sent ++ [message.serialize] ∧
    (Impl.attempt c tr message w).2.sleeps = w.sleeps := by
  have hr := Impl.receiveMessage_world tr
    { sent := w.sent ++ [message.serialize], polls := w.polls + 1, recvs := w.recvs,
      sleeps := w.sleeps }
  unfold Impl.attempt Impl.sendMessage
  dsimp only
  split
  · rename_i e w1 heq
    split at heq <;> cases heq
    exact ⟨rfl, rfl⟩
  · rename_i u w1 heq
    have hw : w1 = { w with sent := w.sent ++ [message.serialize] } := by
      split at heq <;> cases heq
      rfl
    subst hw
    dsimp only
    split
    · split
      · split
        · rename_i e w3 h3
          have h := congrArg Prod.snd h3
          dsimp only at h
          rw [← h]
          exact ⟨hr.1, hr.2.1⟩
        · rename_i r w3 h3
          have h := congrArg Prod.snd h3
          dsimp only at h
          rw [← h]
          exact ⟨hr.1, hr.2.1⟩
      · exact ⟨rfl, rfl⟩
    · split <;> exact ⟨rfl, rfl⟩

/-- The world in which attempt number `i` starts when every earlier attempt has thrown a
`ConnectionError` and been followed by the sleep: its `send` log and sleep count. -/
theorem Impl.failed_attempts_world (c : Impl) (tr : Transport) (message : Message)
    (w : World) (i : Nat) :
    ((fun v => (Impl.attempt c tr message v).2.sleep)^[i] w).sent
      = w.sent ++ List.replicate i message.serialize ∧
    ((fun v => (Impl.attempt c tr message v).2.sleep)^[i] w).sleeps = w.sleeps + i := by
  induction i generalizing w with
  | zero => simp only [Function.iterate_zero, id_eq, List.replicate_zero, List.append_nil,
      Nat.add_zero, and_self]
  | succ i ih =>
    rw [Function.iterate_succ_apply]
    obtain ⟨h1, h2⟩ := ih (Impl.attempt c tr message w).2.sleep
    obtain ⟨a1, a2⟩ := Impl.attempt_world c tr message w
    refine ⟨?_, ?_⟩
    · rw [h1]
      simp only [World.sleep, a1, List.append_assoc, List.singleton_append,
        List.replicate_succ]
    · rw [h2]
      simp only [World.sleep, a2]
      omega

/-- The loop over the last `k` attempt numbers `s, .., retryCount - 1`, each of which throws
a `ConnectionError`: the error of the last one is rethrown. -/
theorem Impl.sendAndReceiveLoop_all_fail (c : Impl) (tr : Transport) (message : Message)
    (N : Nat) (hN : c.retryCount = N) (k : Nat) :
    ∀ (s : Nat) (w : World), s + (k + 1) = N →
      (∀ i, i < k + 1 → ∃ what, (Impl.attempt c tr message
        ((fun v => (Impl.attempt c tr message v).2.sleep)^[i] w)).1
          = .error (.connection what)) →
      ∃ what,
        (Impl.attempt c tr message
          ((fun v => (Impl.attempt c tr message v).2.sleep)^[k] w)).1
            = .error (.connection what) ∧
        Impl.sendAndReceiveLoop c tr message (List.range' s (k + 1)) w
          = (.error (.connection what), (Impl.attempt c tr message
              ((fun v => (Impl.attempt c tr message v).2.sleep)^[k] w)).2) := by
  induction k with
  | zero =>
    intro s w hs hf
    obtain ⟨what, hw⟩ := hf 0 (by omega)
    simp only [Function.iterate_zero, id_eq] at hw ⊢
    refine ⟨what, hw, ?_⟩
    have hlast : (s : Int) = c.retryCount - 1 := by rw [hN]; omega
    simp only [List.range', Impl.sendAndReceiveLoop]
    rcases hA : Impl.attempt c tr message w with ⟨r, w1⟩
    rw [hA] at hw
    dsimp only at hw
    subst hw
    simp only [hlast, if_true]
  | succ k ih =>
    intro s w hs hf
    obtain ⟨what0, hw0⟩ := hf 0 (by omega)
    simp only [Function.iterate_zero, id_eq] at hw0
    have hnot : ¬ ((s : Int) = c.retryCount - 1) := by rw [hN]; omega
    obtain ⟨what, hw, hl⟩ := ih (s + 1) (Impl.attempt c tr message w).2.sleep (by omega)
      (fun i hi => by
        have h := hf (i + 1) (by omega)
        rw [Function.iterate_succ_apply] at h
        exact h)
    refine ⟨what, ?_, ?_⟩
    · rw [Function.iterate_succ_apply]
      exact hw
    · rw [Function.iterate_succ_apply, ← hl]
      rw [show List.range' s (k + 1 + 1) = s :: List.range' (s + 1) (k + 1) from rfl]
      rw [Impl.sendAndReceiveLoop]
      rcases hA : Impl.attempt c tr message w with ⟨r, w1⟩
      rw [hA] at hw0
      dsimp only at hw0
      subst hw0
      simp only [hnot, if_false]

/-- C9. Retry count contract: on a connected client with `retryCount = N >= 1`, when each
of the `N` attempts throws a `ConnectionError`, `sendAndReceive` hands the request to `send`
exactly `N` times, sleeps `N - 1` times, and fails with the error thrown by attempt `N`. -/
theorem DoIPClient.sendAndReceive_all_fail (c : Impl) (tr : Transport) (message : Message)
    (w : World) (N : Nat) (hconn : c.connected = true) (hN : c.retryCount = N) (h1 : 1 ≤ N)
    (hfail : ∀ i, i < N → ∃ what, (Impl.attempt c tr message
      ((fun v => (Impl.attempt c tr message v).2.sleep)^[i] w)).1
        = .error (.connection what)) :
    ∃ what,
      (Impl.attempt c tr message
        ((fun v => (Impl.attempt c tr message v).2.sleep)^[N - 1] w)).1
          = .error (.connection what) ∧
      (DoIPClient.sendAndReceive c tr message w).1 = .error (.connection what) ∧
      (DoIPClient.sendAndReceive c tr message w).2.sent
        = w.sent ++ List.replicate N message.serialize ∧
      (DoIPClient.sendAndReceive c tr message w).2.sent.length = w.sent.length + N ∧
      (DoIPClient.sendAndReceive c tr message w).2.sleeps = w.sleeps + (N - 1) := by
  obtain ⟨k, rfl⟩ : ∃ k, N = k + 1 := ⟨N - 1, by omega⟩
  obtain ⟨what, hw, hl⟩ := Impl.sendAndReceiveLoop_all_fail c tr message (k + 1) hN k 0 w
    (by omega) hfail
  have hrun : DoIPClient.sendAndReceive c tr message w
      = (.error (.connection what), (Impl.attempt c tr message
          ((fun v => (Impl.attempt c tr message v).2.sleep)^[k] w)).2) := by
    simp only [DoIPClient.sendAndReceive, DoIPClient.ensureConnected, hconn,
      Impl.sendAndReceive, hN, Int.toNat_ofNat, List.range_eq_range']
    exact hl
  obtain ⟨a1, a2⟩ := Impl.attempt_world c tr message
    ((fun v => (Impl.attempt c tr message v).2.sleep)^[k] w)
  obtain ⟨f1, f2⟩ := Impl.failed_attempts_world c tr message w k
  have hsent : (DoIPClient.sendAndReceive c tr message w).2.sent
      = w.sent ++ List.replicate (k + 1) message.serialize := by
    rw [hrun]
    dsimp only
    rw [a1, f1, List.append_assoc, List.replicate_succ']
  refine ⟨what, hw, ?_, hsent, ?_, ?_⟩
  · rw [hrun]
  · rw [hsent, List.length_append, List.length_replicate]
  · rw [hrun]
    dsimp only
    rw [a2, f2]
    rfl

/-- Witness of C9 with `retryCount = 3` on a transport whose first `send` fails, whose first
`poll` times out and whose second `poll` fails: three buffers are handed to `send`, two
sleeps are taken, and the error is the third attempt's "Poll error". -/
theorem DoIPClient.sendAndReceive_all_fail_witness :
    (DoIPClient.sendAndReceive
      (Impl.mk "192.168.1.10" 13400 3 true 5000 3)
      (Transport.mk (fun k _ => if k = 0 then -1 else 1)
        (fun k _ => if k = 0 then (0, 0) else (-1, 0)) (fun _ _ => none))
      DoIPClient.vehicleIdentificationRequest (World.mk [] 0 0 0)).1
        = .error (.connection "Poll error") ∧
    (DoIPClient.sendAndReceive
      (Impl.mk "192.168.1.10" 13400 3 true 5000 3)
      (Transport.mk (fun k _ => if k = 0 then -1 else 1)
        (fun k _ => if k = 0 then (0, 0) else (-1, 0)) (fun _ _ => none))
      DoIPClient.vehicleIdentificationRequest (World.mk [] 0 0 0)).2.sent.length = 3 := by
  obtain ⟨what, hw, hres, _, hlen, _⟩ := DoIPClient.sendAndReceive_all_fail
    (Impl.mk "192.168.1.10" 13400 3 true 5000 3)
    (Transport.mk (fun k _ => if k = 0 then -1 else 1)
      (fun k _ => if k = 0 then (0, 0) else (-1, 0)) (fun _ _ => none))
    DoIPClient.vehicleIdentificationRequest (World.mk [] 0 0 0) 3 rfl rfl (by decide)
    (by
      intro i hi
      interval_cases i
      · exact ⟨"Failed to send message", rfl⟩
      · exact ⟨"Response timeout", rfl⟩
      · exact ⟨"Poll error", rfl⟩)
  have hlast : what = "Poll error" := by
    have h := hw.symm.trans (show _ = Except.error (Error.connection "Poll error") from rfl)
    injection h with h
    injection h
  subst hlast
  exact ⟨hres, hlen⟩

/-- C10. Non-positive retry count: on a connected client with `retryCount <= 0`, whatever the
transport, `sendAndReceive` fails with the `ConnectionError` "Max retry attempts reached"
and makes no `send`, no `poll` and no `recv` call (and takes no sleep). -/
theorem DoIPClient.sendAndReceive_nonpositive (c : Impl) (tr : Transport) (message : Message)
    (w : World) (hconn : c.connected = true) (h0 : c.retryCount ≤ 0) :
    (DoIPClient.sendAndReceive c tr message w).1
      = .error (.connection "Max retry attempts reached") ∧
    (DoIPClient.sendAndReceive c tr message w).2.sent = w.sent ∧
    (DoIPClient.sendAndReceive c tr message w).2.polls = w.polls ∧
    (DoIPClient.sendAndReceive c tr message w).2.recvs = w.recvs ∧
    (DoIPClient.sendAndReceive c tr message w).2 = w := by
  have hz : c.retryCount.toNat = 0 := Int.toNat_eq_zero.mpr h0
  have hrun : DoIPClient.sendAndReceive c tr message w
      = (.error (.connection "Max retry attempts reached"), w) := by
    simp only [DoIPClient.sendAndReceive, DoIPClient.ensureConnected, hconn,
      Impl.sendAndReceive, hz, List.range_zero, Impl.sendAndReceiveLoop]
    rfl
  rw [hrun]
  exact ⟨rfl, rfl, rfl, rfl, rfl⟩

/-- Witness of C10 with `retryCount = -2` on a transport that would answer at once. -/
theorem DoIPClient.sendAndReceive_nonpositive_witness :
    DoIPClient.sendAndReceive
      (Impl.mk "192.168.1.10" 13400 3 true 5000 (-2))
      (Transport.mk (fun _ _ => 8) (fun _ _ => (1, 1))
        (fun _ _ => some [0x02, 0xFD, 0x00, 0x06, 0, 0, 0, 0]))
      DoIPClient.vehicleIdentificationRequest (World.mk [] 0 0 0)
      = (.error (.connection "Max retry attempts reached"), World.mk [] 0 0 0) := by
  have h := DoIPClient.sendAndReceive_nonpositive
    (Impl.mk "192.168.1.10" 13400 3 true 5000 (-2))
    (Transport.mk (fun _ _ => 8) (fun _ _ => (1, 1))
      (fun _ _ => some [0x02, 0xFD, 0x00, 0x06, 0, 0, 0, 0]))
    DoIPClient.vehicleIdentificationRequest (World.mk [] 0 0 0) rfl (by decide)
  exact Prod.ext h.1 h.2.2.2.2

/-! ## The connection state -/

/-- C11. Not-connected precondition: while `connected` is false, each of `sendMessage`,
`receiveMessage`, `sendAndReceive`, `sendVehicleIdentificationRequest`,
`sendRoutingActivationRequest`, `sendEntityStatusRequest`, `sendDiagnosticMessage` and
`sendUDSRequest` fails, for every argument, with the `ConnectionError` "Not connected to
DoIP server" and leaves the record of `send`, `poll` and `recv` calls as it was. None of
them assigns a field of the connection state: each reads the state and returns no new one,
so the client is as disconnected afterwards as before. -/
theorem DoIPClient.not_connected (c : Impl) (tr : Transport) (w : World) (message : Message)
    (s t sid : Nat) (d : List Nat) (hc : c.connected = false) :
    DoIPClient.sendMessage c tr message w
      = (.error (.connection "Not connected to DoIP server"), w) ∧
    DoIPClient.receiveMessage c tr w
      = (.error (.connection "Not connected to DoIP server"), w) ∧
    DoIPClient.sendAndReceive c tr message w
      = (.error (.connection "Not connected to DoIP server"), w) ∧
    DoIPClient.sendVehicleIdentificationRequest c tr w
      = (.error (.connection "Not connected to DoIP server"), w) ∧
    DoIPClient.sendRoutingActivationRequest c tr s w
      = (.error (.connection "Not connected to DoIP server"), w) ∧
    DoIPClient.sendEntityStatusRequest c tr w
      = (.error (.connection "Not connected to DoIP server"), w) ∧
    DoIPClient.sendDiagnosticMessage c tr s t d w
      = (.error (.connection "Not connected to DoIP server"), w) ∧
    DoIPClient.sendUDSRequest c tr s t sid d w
      = (.error (.connection "Not connected to DoIP server"), w) := by
  have he : DoIPClient.ensureConnected c
      = .error (.connection "Not connected to DoIP server") := by
    simp only [DoIPClient.ensureConnected, hc, Bool.false_eq_true, not_false_eq_true, if_true]
  have hsr : ∀ m, DoIPClient.sendAndReceive c tr m w
      = (.error (.connection "Not connected to DoIP server"), w) := by
    intro m
    simp only [DoIPClient.sendAndReceive, he]
  refine ⟨?_, ?_, hsr _, hsr _, hsr _, hsr _, hsr _, hsr _⟩
  · simp only [DoIPClient.sendMessage, he]
  · simp only [DoIPClient.receiveMessage, he]

/-- Witness of C11 on a freshly constructed client and a transport that would answer. -/
theorem DoIPClient.not_connected_witness :
    DoIPClient.sendUDSRequest (Impl.new "192.168.1.10" 13400)
      (Transport.mk (fun _ _ => 15) (fun _ _ => (1, 1))
        (fun _ _ => some [0x02, 0xFD, 0x80, 0x02, 0, 0, 0, 0]))
      0x0E80 0x0EE0 0x22 [0xF1, 0x90] (World.mk [] 0 0 0)
      = (.error (.connection "Not connected to DoIP server"), World.mk [] 0 0 0) :=
  (DoIPClient.not_connected (Impl.new "192.168.1.10" 13400)
    (Transport.mk (fun _ _ => 15) (fun _ _ => (1, 1))
      (fun _ _ => some [0x02, 0xFD, 0x80, 0x02, 0, 0, 0, 0]))
    (World.mk [] 0 0 0) Message.default 0x0E80 0x0EE0 0x22 [0xF1, 0x90] rfl).2.2.2.2.2.2.2

/-- C16. `disconnect` is idempotent and total: from every state it returns (there is no
failure result), leaves `connected == false`, and changes no other field (server address,
port, socket handle, timeout, retry count); a second `disconnect` changes neither the state
nor the list of socket calls. -/
theorem Impl.disconnect_idempotent (c : Impl) (calls : List SockCall) :
    (Impl.disconnect c calls).1.connected = false ∧
    (Impl.disconnect c calls).1 = { c with connected := false } ∧
    (Impl.disconnect c calls).1.serverIP = c.serverIP ∧
    (Impl.disconnect c calls).1.port = c.port ∧
    (Impl.disconnect c calls).1.responseTimeout = c.responseTimeout ∧
    (Impl.disconnect c calls).1.retryCount = c.retryCount ∧
    Impl.disconnect (Impl.disconnect c calls).1 (Impl.disconnect c calls).2
      = Impl.disconnect c calls ∧
    (Impl.disconnect c calls).2
      = (if c.connected then calls ++ [SockCall.close c.sock] else calls) := by
  cases hc : c.connected
  · have h : Impl.disconnect c calls = (c, calls) := by
      simp only [Impl.disconnect, hc, Bool.false_eq_true, if_false]
    have hcc : ({ c with connected := false } : Impl) = c := by
      cases c
      simp only at hc
      simp only [hc]
    rw [h]
    simp only [hcc, h, hc, Bool.false_eq_true, if_false, and_self]
  · have h : Impl.disconnect c calls
        = ({ c with connected := false }, calls ++ [SockCall.close c.sock]) := by
      simp only [Impl.disconnect, hc, if_true]
    rw [h]
    simp only [Impl.disconnect, Bool.false_eq_true, if_false, if_true, and_self]

/-- C17. `connect` is idempotent and leaves the client unconnected on failure: when
`connected` is already true it makes no socket call and returns the state unchanged; when
`connected` is false and `socket`, `inet_pton` or `::connect` fails it fails with a
`ConnectionError` and `connected` stays false; `connected` becomes true exactly when all
three calls succeed, and then `connect` returns normally. -/
theorem Impl.connect_cases (net : Network) (c : Impl) (calls : List SockCall) :
    (c.connected = true → Impl.connect net c calls = (.ok (), c, calls)) ∧
    (c.connected = false →
      (net.socket calls.length = -1 ∨
       net.inet_pton (calls.length + 1) c.serverIP ≤ 0 ∨
       net.connect (calls.length + 2) (net.socket calls.length) c.port < 0) →
      (∃ what, (Impl.connect net c calls).1 = .error (.connection what)) ∧
      (Impl.connect net c calls).2.1.connected = false) ∧
    (c.connected = false →
      ((Impl.connect net c calls).2.1.connected = true ↔
        (net.socket calls.length ≠ -1 ∧
         0 < net.inet_pton (calls.length + 1) c.serverIP ∧
         0 ≤ net.connect (calls.length + 2) (net.socket calls.length) c.port))) ∧
    (c.connected = false →
      (Impl.connect net c calls).2.1.connected = true →
      (Impl.connect net c calls).1 = .ok ()) ∧
    (Impl.connect net c calls).2.1.serverIP = c.serverIP ∧
    (Impl.connect net c calls).2.1.port = c.port ∧
    (Impl.connect net c calls).2.1.responseTimeout = c.responseTimeout ∧
    (Impl.connect net c calls).2.1.retryCount = c.retryCount := by
  cases hc : c.connected
  · simp only [Impl.connect, hc, Bool.false_eq_true, if_false, List.length_append,
      List.length_cons, List.length_nil, false_implies, true_implies, true_and]
    by_cases h1 : net.socket calls.length = -1
    · simp [h1]
    · by_cases h2 : net.inet_pton (calls.length + 1) c.serverIP ≤ 0
      · simp [h1, h2]
      · by_cases h3 : net.connect (calls.length + 2) (net.socket calls.length) c.port < 0
        · simp [h1, h2, h3]
        · have h2p : 0 < net.inet_pton (calls.length + 1) c.serverIP := by omega
          have h3p : 0 ≤ net.connect (calls.length + 2) (net.socket calls.length) c.port := by
            omega
          simp [h1, h2, h3, h2p, h3p]
  · simp only [Impl.connect, hc, if_true, true_implies, Bool.true_eq_false, false_implies,
      and_self]

/-- Witness of C17: a client that `connect` connects, and one whose address is refused by
`inet_pton`. -/
theorem Impl.connect_cases_witness :
    (Impl.connect (Network.mk (fun _ => 3) (fun _ _ => 1) (fun _ _ _ => 0))
      (Impl.new "192.168.1.10" 13400) []).2.1.connected = true ∧
    (Impl.connect (Network.mk (fun _ => 3) (fun _ _ => 0) (fun _ _ _ => 0))
      (Impl.new "not an address" 13400) []).2.1.connected = false :=
  ⟨((Impl.connect_cases (Network.mk (fun _ => 3) (fun _ _ => 1) (fun _ _ _ => 0))
      (Impl.new "192.168.1.10" 13400) []).2.2.1 rfl).mpr (by decide),
   ((Impl.connect_cases (Network.mk (fun _ => 3) (fun _ _ => 0) (fun _ _ _ => 0))
      (Impl.new "not an address" 13400) []).2.1 rfl (Or.inr (Or.inl (by decide)))).2⟩

/-! ## Sending and receiving one frame -/

/-- C15, evaluated where it fails: on a connected client, for the 8-byte
vehicle-identification request and a socket whose `send` returns 3, `sendMessage` returns
normally although `send` accepted a proper prefix (3 of the 8 bytes). -/
theorem DoIPClient.sendMessage_partial_write :
    (DoIPClient.sendMessage (Impl.mk "192.168.1.10" 13400 3 true 5000 3)
      (Transport.mk (fun _ _ => 3) (fun _ _ => (0, 0)) (fun _ _ => none))
      DoIPClient.vehicleIdentificationRequest (World.mk [] 0 0 0)).1 = .ok () ∧
    DoIPClient.vehicleIdentificationRequest.serialize.length = 8 ∧
    (3 : Int) < DoIPClient.vehicleIdentificationRequest.serialize.length := by
  decide

theorem Message.deserialize_append (h p : List Nat) (hh : Bytes h) (hlen : h.length = 8)
    (hp : Bytes p)
    (hpl : p.length = h.getD 4 0 * 16777216 + h.getD 5 0 * 65536 + h.getD 6 0 * 256
      + h.getD 7 0) :
    Message.deserialize (h ++ p) = .ok
      { protocolVersion := h.getD 0 0
        inverseProtocolVersion := h.getD 1 0
        payloadType := h.getD 2 0 * 256 + h.getD 3 0
        payloadLength := p.length
        payload := p } := by
  have hb : Bytes (h ++ p) := by
    intro x hx
    rcases List.mem_append.mp hx with hx | hx
    · exact hh x hx
    · exact hp x hx
  have hg : ∀ i, i < 8 → (h ++ p).getD i 0 = h.getD i 0 := by
    intro i hi
    simp only [List.getD_eq_getElem?_getD]
    rw [List.getElem?_append_left (by omega)]
  rw [Message.deserialize_eq_ok (h ++ p) hb]
  · rw [hg 0 (by omega), hg 1 (by omega), hg 2 (by omega), hg 3 (by omega), hg 4 (by omega),
      hg 5 (by omega), hg 6 (by omega), hg 7 (by omega), ← hpl, ← hlen,
      List.drop_left, List.take_length]
  · rw [List.length_append]; omega
  · rw [hg 4 (by omega), hg 5 (by omega), hg 6 (by omega), hg 7 (by omega), ← hpl,
      List.length_append]
    omega

/-- The length that `receiveMessage` reads from the header it received. -/
theorem Impl.receiveMessage_header (tr : Transport) (w : World) (h : List Nat)
    (hh : Bytes h) (hlen : h.length = 8) (hr1 : tr.recv w.recvs 8 = some h) :
    Impl.receiveMessage tr w =
      match tr.recv (w.recvs + 1)
        (h.getD 4 0 * 16777216 + h.getD 5 0 * 65536 + h.getD 6 0 * 256 + h.getD 7 0) with
      | none => (.error (.connection "Failed to receive message payload"),
          { w with recvs := w.recvs + 1 + 1 })
      | some got2 =>
        if (got2.take (h.getD 4 0 * 16777216 + h.getD 5 0 * 65536 + h.getD 6 0 * 256
            + h.getD 7 0)).length
            ≠ h.getD 4 0 * 16777216 + h.getD 5 0 * 65536 + h.getD 6 0 * 256 + h.getD 7 0 then
          (.error (.connection "Failed to receive message payload"),
            { w with recvs := w.recvs + 1 + 1 })
        else
          (Message.deserialize (h ++ got2.take (h.getD 4 0 * 16777216 + h.getD 5 0 * 65536
            + h.getD 6 0 * 256 + h.getD 7 0)), { w with recvs := w.recvs + 1 + 1 }) := by
  have hl := length_word_eq (h.getD 4 0) (h.getD 5 0) (h.getD 6 0) (h.getD 7 0)
    (hh.getD_lt 4) (hh.getD_lt 5) (hh.getD_lt 6) (hh.getD_lt 7)
  have ht : h.take 8 = h := List.take_of_length_le (by omega)
  simp only [Impl.receiveMessage, HEADER_SIZE, hr1, ht, hlen, ne_eq, not_true_eq_false,
    if_false, hl]

/-- C19. `receiveMessage` never hits a decode failure: when the first read returns an
8-byte header `h` and the second read, asked for the big-endian value `N` of `h[4..7]`,
returns `N` bytes `p`, `receiveMessage` returns what `deserialize (h ++ p)` returns, which
is the frame with `payloadLength = N` and `payload = p`; when the first read returns other
than 8 bytes, or the second other than `N` bytes, it fails with a `ConnectionError`, an
error `deserialize` never produces. -/
theorem Impl.receiveMessage_decodes (tr : Transport) (w : World) (h p : List Nat) :
    (Bytes h → h.length = 8 → Bytes p →
      p.length = h.getD 4 0 * 16777216 + h.getD 5 0 * 65536 + h.getD 6 0 * 256 + h.getD 7 0 →
      tr.recv w.recvs 8 = some h →
      tr.recv (w.recvs + 1)
        (h.getD 4 0 * 16777216 + h.getD 5 0 * 65536 + h.getD 6 0 * 256 + h.getD 7 0)
          = some p →
      Impl.receiveMessage tr w
        = (Message.deserialize (h ++ p), { w with recvs := w.recvs + 2 }) ∧
      Message.deserialize (h ++ p) = .ok
        { protocolVersion := h.getD 0 0
          inverseProtocolVersion := h.getD 1 0
          payloadType := h.getD 2 0 * 256 + h.getD 3 0
          payloadLength :=
            h.getD 4 0 * 16777216 + h.getD 5 0 * 65536 + h.getD 6 0 * 256 + h.getD 7 0
          payload := p }) ∧
    ((tr.recv w.recvs 8 = none ∨
        ∃ got, tr.recv w.recvs 8 = some got ∧ (got.take 8).length ≠ 8) →
      Impl.receiveMessage tr w
        = (.error (.connection "Failed to receive message header"),
            { w with recvs := w.recvs + 1 })) ∧
    (Bytes h → h.length = 8 → tr.recv w.recvs 8 = some h →
      (tr.recv (w.recvs + 1)
          (h.getD 4 0 * 16777216 + h.getD 5 0 * 65536 + h.getD 6 0 * 256 + h.getD 7 0)
            = none ∨
        ∃ got2, tr.recv (w.recvs + 1)
          (h.getD 4 0 * 16777216 + h.getD 5 0 * 65536 + h.getD 6 0 * 256 + h.getD 7 0)
            = some got2 ∧
          (got2.take (h.getD 4 0 * 16777216 + h.getD 5 0 * 65536 + h.getD 6 0 * 256
            + h.getD 7 0)).length
            ≠ h.getD 4 0 * 16777216 + h.getD 5 0 * 65536 + h.getD 6 0 * 256 + h.getD 7 0) →
      Impl.receiveMessage tr w
        = (.error (.connection "Failed to receive message payload"),
            { w with recvs := w.recvs + 2 })) ∧
    (∀ b what, Message.deserialize b ≠ .error (.connection what)) := by
  refine ⟨?_, ?_, ?_, ?_⟩
  · intro hh hlen hp hpl hr1 hr2
    have hd := Message.deserialize_append h p hh hlen hp hpl
    rw [hpl] at hd
    refine ⟨?_, hd⟩
    rw [Impl.receiveMessage_header tr w h hh hlen hr1, hr2]
    have htk : p.take (h.getD 4 0 * 16777216 + h.getD 5 0 * 65536 + h.getD 6 0 * 256
        + h.getD 7 0) = p := List.take_of_length_le (by omega)
    simp only [htk, hpl, ne_eq, not_true_eq_false, if_false]
  · rintro (hn | ⟨got, hg, hgl⟩)
    · simp only [Impl.receiveMessage, HEADER_SIZE, hn]
    · simp only [Impl.receiveMessage, HEADER_SIZE, hg, hgl, ne_eq, not_false_eq_true, if_true]
  · intro hh hlen hr1 hcase
    rw [Impl.receiveMessage_header tr w h hh hlen hr1]
    rcases hcase with hn | ⟨got2, hg, hgl⟩
    · simp only [hn]
    · simp only [hg, hgl, ne_eq, not_false_eq_true, if_true]
  · intro b what hb
    simp only [Message.deserialize] at hb
    split at hb
    · cases hb
    · split at hb <;> cases hb

/-- Witness of C19: the header `02 FD 80 02 00 00 00 02` followed by the two bytes
`0E 80` is received as the positive acknowledgement with payload `[0x0E, 0x80]`. -/
theorem Impl.receiveMessage_decodes_witness :
    Impl.receiveMessage
      (Transport.mk (fun _ _ => 8) (fun _ _ => (1, 1))
        (fun k _ => if k = 0 then some [0x02, 0xFD, 0x80, 0x02, 0, 0, 0, 2]
          else some [0x0E, 0x80]))
      (World.mk [] 0 0 0)
      = (.ok (Message.mk 0x02 0xFD 0x8002 2 [0x0E, 0x80]), World.mk [] 0 2 0) := by
  have h := (Impl.receiveMessage_decodes
    (Transport.mk (fun _ _ => 8) (fun _ _ => (1, 1))
      (fun k _ => if k = 0 then some [0x02, 0xFD, 0x80, 0x02, 0, 0, 0, 2]
        else some [0x0E, 0x80]))
    (World.mk [] 0 0 0) [0x02, 0xFD, 0x80, 0x02, 0, 0, 0, 2] [0x0E, 0x80]).1
      (by decide) rfl (by decide) rfl rfl rfl
  exact h.1.trans (congrArg (fun r => (r, World.mk [] 0 2 0)) h.2)

/-! ## Success after failed attempts -/

/-- A successful `receiveMessage` has made exactly two `recv` calls. -/
theorem Impl.receiveMessage_ok_recvs (tr : Transport) (w : World) (r : Message)
    (h : (Impl.receiveMessage tr w).1 = .ok r) :
    (Impl.receiveMessage tr w).2.recvs = w.recvs + 2 := by
  cases h1 : tr.recv w.recvs HEADER_SIZE with
  | none =>
    simp only [Impl.receiveMessage, h1] at h
    cases h
  | some got =>
    by_cases hl : (got.take HEADER_SIZE).length = HEADER_SIZE
    · simp only [Impl.receiveMessage, h1, hl, ne_eq, not_true_eq_false, if_false] at h ⊢
      split
      · rfl
      · split <;> rfl
    · simp only [Impl.receiveMessage, h1, hl, ne_eq, not_false_eq_true, if_true] at h
      cases h

/-- An attempt whose `send` is accepted, whose `poll` reports the socket readable and
whose `receiveMessage` returns `r` returns `r`. -/
theorem Impl.attempt_success (c : Impl) (tr : Transport) (message : Message) (w : World)
    (r : Message)
    (hsend : 0 ≤ tr.send w.sent.length message.serialize)
    (hpoll : 0 < (tr.poll w.polls (toInt32 c.responseTimeout)).1)
    (hin : (tr.poll w.polls (toInt32 c.responseTimeout)).2 &&& POLLIN ≠ 0)
    (hrecv : (Impl.receiveMessage tr
      { w with sent := w.sent ++ [message.serialize], polls := w.polls + 1 }).1 = .ok r) :
    Impl.attempt c tr message w = (.ok (some r), (Impl.receiveMessage tr
      { w with sent := w.sent ++ [message.serialize], polls := w.polls + 1 }).2) := by
  have hs : ¬ tr.send w.sent.length message.serialize < 0 := by omega
  rcases hR : Impl.receiveMessage tr
    { w with sent := w.sent ++ [message.serialize], polls := w.polls + 1 } with ⟨res, w3⟩
  rw [hR] at hrecv
  dsimp only at hrecv
  subst hrecv
  simp only [Impl.attempt, Impl.sendMessage, hs, if_false, gt_iff_lt, hpoll, if_true, hin,
    ne_eq, not_false_eq_true, hR]

/-- The loop over the attempt numbers `s, s + 1, ..` when the first `j` of them throw a
`ConnectionError` and the next one returns `r`: the loop returns `r` there. -/
theorem Impl.sendAndReceiveLoop_success (c : Impl) (tr : Transport) (message : Message)
    (r : Message) (N : Nat) (hN : c.retryCount = N) (j : Nat) :
    ∀ (s n : Nat) (w : World), j < n → s + n = N →
      (∀ i, i < j → ∃ what, (Impl.attempt c tr message
        ((fun v => (Impl.attempt c tr message v).2.sleep)^[i] w)).1
          = .error (.connection what)) →
      (Impl.attempt c tr message
        ((fun v => (Impl.attempt c tr message v).2.sleep)^[j] w)).1 = .ok (some r) →
      Impl.sendAndReceiveLoop c tr message (List.range' s n) w
        = (.ok r, (Impl.attempt c tr message
            ((fun v => (Impl.attempt c tr message v).2.sleep)^[j] w)).2) := by
  induction j with
  | zero =>
    intro s n w hn hs _ hok
    obtain ⟨m, rfl⟩ : ∃ m, n = m + 1 := ⟨n - 1, by omega⟩
    simp only [Function.iterate_zero, id_eq] at hok ⊢
    rw [show List.range' s (m + 1) = s :: List.range' (s + 1) m from rfl,
      Impl.sendAndReceiveLoop]
    rcases hA : Impl.attempt c tr message w with ⟨res, w1⟩
    rw [hA] at hok
    dsimp only at hok
    subst hok
    rfl
  | succ j ih =>
    intro s n w hn hs hf hok
    obtain ⟨m, rfl⟩ : ∃ m, n = m + 1 := ⟨n - 1, by omega⟩
    obtain ⟨what0, hw0⟩ := hf 0 (by omega)
    simp only [Function.iterate_zero, id_eq] at hw0
    have hnot : ¬ ((s : Int) = c.retryCount - 1) := by rw [hN]; omega
    rw [Function.iterate_succ_apply] at hok ⊢
    rw [← ih (s + 1) m (Impl.attempt c tr message w).2.sleep (by omega) (by omega)
      (fun i hi => by
        have h := hf (i + 1) (by omega)
        rw [Function.iterate_succ_apply] at h
        exact h) hok]
    rw [show List.range' s (m + 1) = s :: List.range' (s + 1) m from rfl,
      Impl.sendAndReceiveLoop]
    rcases hA : Impl.attempt c tr message w with ⟨res, w1⟩
    rw [hA] at hw0
    dsimp only at hw0
    subst hw0
    simp only [hnot, if_false]

/-- C20. Success after `k` attempts: on a connected client with `retryCount = N` and
`1 <= k <= N`, when attempts `1 .. k-1` each throw a `ConnectionError` and on attempt `k`
the `send` is accepted, `poll` reports the socket readable (positive result with `POLLIN`)
and `receiveMessage` returns the frame `r`, `sendAndReceive` returns `r`; the request has
then been handed to `send` exactly `k` times, `k - 1` sleeps have been taken, and the world
is the one the `k`-th attempt leaves, two `recv` calls after its `poll`: nothing is sent
after the response. -/
theorem DoIPClient.sendAndReceive_success (c : Impl) (tr : Transport) (message : Message)
    (w : World) (N k : Nat) (r : Message)
    (hconn : c.connected = true) (hN : c.retryCount = N) (hk1 : 1 ≤ k) (hkN : k ≤ N)
    (hfail : ∀ i, i < k - 1 → ∃ what, (Impl.attempt c tr message
      ((fun v => (Impl.attempt c tr message v).2.sleep)^[i] w)).1
        = .error (.connection what))
    (hsend : 0 ≤ tr.send
      ((fun v => (Impl.attempt c tr message v).2.sleep)^[k - 1] w).sent.length
      message.serialize)
    (hpoll : 0 < (tr.poll ((fun v => (Impl.attempt c tr message v).2.sleep)^[k - 1] w).polls
      (toInt32 c.responseTimeout)).1)
    (hin : (tr.poll ((fun v => (Impl.attempt c tr message v).2.sleep)^[k - 1] w).polls
      (toInt32 c.responseTimeout)).2 &&& POLLIN ≠ 0)
    (hrecv : (Impl.receiveMessage tr
      { (fun v => (Impl.attempt c tr message v).2.sleep)^[k - 1] w with
        sent := ((fun v => (Impl.attempt c tr message v).2.sleep)^[k - 1] w).sent
          ++ [message.serialize]
        polls := ((fun v => (Impl.attempt c tr message v).2.sleep)^[k - 1] w).polls + 1 }).1
      = .ok r) :
    (DoIPClient.sendAndReceive c tr message w).1 = .ok r ∧
    (DoIPClient.sendAndReceive c tr message w).2.sent
      = w.sent ++ List.replicate k message.serialize ∧
    (DoIPClient.sendAndReceive c tr message w).2.sent.length = w.sent.length + k ∧
    (DoIPClient.sendAndReceive c tr message w).2.sleeps = w.sleeps + (k - 1) ∧
    (DoIPClient.sendAndReceive c tr message w).2.recvs
      = ((fun v => (Impl.attempt c tr message v).2.sleep)^[k - 1] w).recvs + 2 ∧
    (DoIPClient.sendAndReceive c tr message w).2.polls
      = ((fun v => (Impl.attempt c tr message v).2.sleep)^[k - 1] w).polls + 1 := by
  have hA := Impl.attempt_success c tr message
    ((fun v => (Impl.attempt c tr message v).2.sleep)^[k - 1] w) r hsend hpoll hin hrecv
  have hrun : DoIPClient.sendAndReceive c tr message w
      = (.ok r, (Impl.attempt c tr message
          ((fun v => (Impl.attempt c tr message v).2.sleep)^[k - 1] w)).2) := by
    simp only [DoIPClient.sendAndReceive, DoIPClient.ensureConnected, hconn,
      Impl.sendAndReceive, hN, Int.toNat_ofNat, List.range_eq_range']
    exact Impl.sendAndReceiveLoop_success c tr message r N hN (k - 1) 0 N w (by omega)
      (by omega) hfail (by rw [hA])
  obtain ⟨a1, a2⟩ := Impl.attempt_world c tr message
    ((fun v => (Impl.attempt c tr message v).2.sleep)^[k - 1] w)
  obtain ⟨f1, f2⟩ := Impl.failed_attempts_world c tr message w (k - 1)
  have hrw := Impl.receiveMessage_world tr
    { (fun v => (Impl.attempt c tr message v).2.sleep)^[k - 1] w with
      sent := ((fun v => (Impl.attempt c tr message v).2.sleep)^[k - 1] w).sent
        ++ [message.serialize]
      polls := ((fun v => (Impl.attempt c tr message v).2.sleep)^[k - 1] w).polls + 1 }
  have hrr := Impl.receiveMessage_ok_recvs tr _ r hrecv
  have hsent : (DoIPClient.sendAndReceive c tr message w).2.sent
      = w.sent ++ List.replicate k message.serialize := by
    rw [hrun]
    dsimp only
    rw [a1, f1, List.append_assoc, ← List.replicate_succ']
    congr 2
    omega
  refine ⟨?_, hsent, ?_, ?_, ?_, ?_⟩
  · rw [hrun]
  · rw [hsent, List.length_append, List.length_replicate]
  · rw [hrun]
    dsimp only
    rw [a2, f2]
  · rw [hrun, hA]
    exact hrr
  · rw [hrun, hA]
    exact hrw.2.2

/-- Witness of C20 with `retryCount = 3` and `k = 2`: the first `send` fails, the second
attempt receives the positive acknowledgement; two buffers have been sent and one sleep
taken. -/
theorem DoIPClient.sendAndReceive_success_witness :
    (DoIPClient.sendAndReceive (Impl.mk "192.168.1.10" 13400 3 true 5000 3)
      (Transport.mk (fun k _ => if k = 0 then -1 else 8) (fun _ _ => (1, 1))
        (fun k _ => if k = 0 then some [0x02, 0xFD, 0x80, 0x02, 0, 0, 0, 2]
          else some [0x0E, 0x80]))
      DoIPClient.vehicleIdentificationRequest (World.mk [] 0 0 0)).1
        = .ok (Message.mk 0x02 0xFD 0x8002 2 [0x0E, 0x80]) ∧
    (DoIPClient.sendAndReceive (Impl.mk "192.168.1.10" 13400 3 true 5000 3)
      (Transport.mk (fun k _ => if k = 0 then -1 else 8) (fun _ _ => (1, 1))
        (fun k _ => if k = 0 then some [0x02, 0xFD, 0x80, 0x02, 0, 0, 0, 2]
          else some [0x0E, 0x80]))
      DoIPClient.vehicleIdentificationRequest (World.mk [] 0 0 0)).2.sent.length = 2 ∧
    (DoIPClient.sendAndReceive (Impl.mk "192.168.1.10" 13400 3 true 5000 3)
      (Transport.mk (fun k _ => if k = 0 then -1 else 8) (fun _ _ => (1, 1))
        (fun k _ => if k = 0 then some [0x02, 0xFD, 0x80, 0x02, 0, 0, 0, 2]
          else some [0x0E, 0x80]))
      DoIPClient.vehicleIdentificationRequest (World.mk [] 0 0 0)).2.sleeps = 1 := by
  have h := DoIPClient.sendAndReceive_success (Impl.mk "192.168.1.10" 13400 3 true 5000 3)
    (Transport.mk (fun k _ => if k = 0 then -1 else 8) (fun _ _ => (1, 1))
      (fun k _ => if k = 0 then some [0x02, 0xFD, 0x80, 0x02, 0, 0, 0, 2]
        else some [0x0E, 0x80]))
    DoIPClient.vehicleIdentificationRequest (World.mk [] 0 0 0) 3 2
    (Message.mk 0x02 0xFD 0x8002 2 [0x0E, 0x80]) rfl rfl (by decide) (by decide)
    (by
      intro i hi
      interval_cases i
      exact ⟨"Failed to send message", rfl⟩)
    (by decide) (by decide) (by decide) (by decide)
  exact ⟨h.1, h.2.2.1, h.2.2.2.1⟩

end DoIP

/-! ## The service codec -/

namespace UDS

theorem UDSClient.formatHex_foldl (l : List Nat) (acc : String) :
    List.foldl (fun oss byte => oss ++ hexByte byte ++ " ") acc l
      = acc ++ UDSClient.formatHex l := by
  induction l generalizing acc with
  | nil => simp only [UDSClient.formatHex, List.foldl_nil, String.append_empty]
  | cons b l ih =>
    simp only [UDSClient.formatHex, List.foldl_cons]
    rw [ih, ih ("" ++ hexByte b ++ " ")]
    simp only [String.empty_append, String.append_assoc]

theorem UDSClient.formatHex_cons (b : Nat) (l : List Nat) :
    UDSClient.formatHex (b :: l) = hexByte b ++ " " ++ UDSClient.formatHex l := by
  rw [UDSClient.formatHex, List.foldl_cons, UDSClient.formatHex_foldl]
  simp only [String.empty_append]

/-- The dump is the concatenation, byte by byte, of the two-character output and a space. -/
theorem UDSClient.formatHex_eq_join (l : List Nat) :
    UDSClient.formatHex l = String.join (l.map (fun b => hexByte b ++ " ")) := by
  simp only [UDSClient.formatHex, String.join, List.foldl_map, String.append_assoc]

set_option maxRecDepth 1000000 in
/-- A byte is written as exactly two lowercase hexadecimal digits. -/
theorem hexByte_digits : ∀ b, b < 256 →
    hexByte b = String.mk [ "0123456789abcdef".toList.getD (b / 16) '0',
                            "0123456789abcdef".toList.getD (b % 16) '0' ] := by
  decide

/-- The report when no handler is registered and the data is `first :: rest`. -/
theorem UDSClient.interpretResponse_unhandled (serviceHandlers : Handlers)
    (response : UDSMessage) (outside : Option Nat) (first : Nat) (rest : List Nat)
    (hdata : response.data = first :: rest)
    (hnone : serviceHandlers response.service = none) :
    UDSClient.interpretResponse serviceHandlers response outside = .ok
      ("Service: " ++ UDSClient.getServiceName response.service ++ " (0x"
        ++ hexByte response.service ++ ")\n"
        ++ "Data: " ++ UDSClient.formatHex response.data ++ "\n"
        ++ (if first = 0x00 then "Status: Positive Response\n"
            else "Status: Negative Response\n"
              ++ (match rest with
                  | [] => ""
                  | second :: _ => "NRC: 0x" ++ hexByte second ++ "\n"))) := by
  unfold UDSClient.interpretResponse
  simp only [hnone, hdata, List.isEmpty_cons, Bool.false_eq_true, not_false_eq_true, if_true,
    uncheckedFirst, List.length_cons]
  cases rest with
  | nil =>
    by_cases h0 : first = 0
    · simp only [h0, if_true, String.append_assoc]
    · simp only [h0, if_false, List.length_nil, Nat.zero_add, gt_iff_lt, Nat.lt_irrefl,
        String.append_assoc, String.append_empty]
  | cons second tl =>
    by_cases h0 : first = 0
    · simp only [h0, if_true, String.append_assoc]
    · simp only [h0, if_false, gt_iff_lt, Nat.lt_add_left_iff_pos, Nat.zero_lt_succ, if_true,
        List.getD_cons_succ, List.getD_cons_zero, String.append_assoc]
      rw [if_pos (show 0 < (second :: tl).length from Nat.succ_pos tl.length)]

/-- The report when a handler is registered for the service of the response. -/
theorem UDSClient.interpretResponse_handled (serviceHandlers : Handlers)
    (response : UDSMessage) (outside : Option Nat) (handler : Handler)
    (hsome : serviceHandlers response.service = some handler) :
    UDSClient.interpretResponse serviceHandlers response outside = .ok
      ("Service: " ++ UDSClient.getServiceName response.service ++ " (0x"
        ++ hexByte response.service ++ ")\n"
        ++ (if response.data = [] then ""
            else "Data: " ++ UDSClient.formatHex response.data ++ "\n")
        ++ handler response.data) := by
  unfold UDSClient.interpretResponse
  simp only [hsome]
  cases hd : response.data with
  | nil => simp only [List.isEmpty_nil, not_true_eq_false, if_false, if_true,
      String.append_empty]
  | cons b l => simp only [List.isEmpty_cons, Bool.false_eq_true, not_false_eq_true, if_true,
      reduceCtorEq, if_false, String.append_assoc]

/-- C12. Default interpretation: for a response with data `first :: rest` whose service has
no registered handler, `interpretResponse` returns the service-name line, then the line
"Data: " followed by the hex dump of all data bytes, then "Status: Positive Response" if
`first == 0x00`, otherwise "Status: Negative Response" followed by the line
"NRC: 0x" with the second byte exactly when there is one. The dump is two lowercase
hexadecimal digits and a space per byte. Nothing outside the vector is read (`outside` is
arbitrary). -/
theorem UDSClient.interpretResponse_default (serviceHandlers : Handlers)
    (response : UDSMessage) (outside : Option Nat) (first : Nat) (rest : List Nat)
    (hdata : response.data = first :: rest)
    (hnone : serviceHandlers response.service = none) :
    UDSClient.interpretResponse serviceHandlers response outside = .ok
      ("Service: " ++ UDSClient.getServiceName response.service ++ " (0x"
        ++ hexByte response.service ++ ")\n"
        ++ "Data: " ++ UDSClient.formatHex response.data ++ "\n"
        ++ (if first = 0x00 then "Status: Positive Response\n"
            else "Status: Negative Response\n"
              ++ (match rest with
                  | [] => ""
                  | second :: _ => "NRC: 0x" ++ hexByte second ++ "\n"))) ∧
    UDSClient.formatHex response.data
      = String.join (response.data.map (fun b => hexByte b ++ " ")) ∧
    (∀ b, b ∈ response.data → b < 256 →
      hexByte b = String.mk [ "0123456789abcdef".toList.getD (b / 16) '0',
                              "0123456789abcdef".toList.getD (b % 16) '0' ]) :=
  ⟨UDSClient.interpretResponse_unhandled serviceHandlers response outside first rest hdata
    hnone,
   UDSClient.formatHex_eq_join response.data,
   fun b _ hb => hexByte_digits b hb⟩

/-- Witness of C12: the data `[0x00, 0xAB, 0xCD]` is a positive response with the dump
`00 ab cd`, the data `[0x7F, 0x31]` a negative response with NRC `0x31`. -/
theorem UDSClient.interpretResponse_default_witness :
    UDSClient.interpretResponse Handlers.empty
      (UDSMessage.mk ServiceID.TesterPresent [0x00, 0xAB, 0xCD]) none
      = .ok "Service: TesterPresent (0x3e)\nData: 00 ab cd \nStatus: Positive Response\n" ∧
    UDSClient.interpretResponse Handlers.empty
      (UDSMessage.mk ServiceID.ReadDataByIdentifier [0x7F, 0x31]) none
      = .ok ("Service: ReadDataByIdentifier (0x22)\nData: 7f 31 \n"
          ++ "Status: Negative Response\nNRC: 0x31\n") :=
  ⟨(UDSClient.interpretResponse_default Handlers.empty
      (UDSMessage.mk ServiceID.TesterPresent [0x00, 0xAB, 0xCD]) none 0x00 [0xAB, 0xCD]
      rfl rfl).1.trans (by decide),
   (UDSClient.interpretResponse_default Handlers.empty
      (UDSMessage.mk ServiceID.ReadDataByIdentifier [0x7F, 0x31]) none 0x7F [0x31]
      rfl rfl).1.trans (by decide)⟩

/-- C13, as stated, fails: with a handler registered for `TesterPresent`, a `TesterPresent`
response with empty data is interpreted without failure, even when a read of `data[0]`
would fault; the report is the service-name line followed by the output of the handler. -/
theorem UDSClient.interpretResponse_empty_counterexample :
    UDSClient.interpretResponse
      (UDSClient.addServiceHandler Handlers.empty ServiceID.TesterPresent
        (fun data => if data.length = 0 then "no data" else "data"))
      (UDSMessage.mk ServiceID.TesterPresent []) none
      = .ok "Service: TesterPresent (0x3e)\nno data" := by
  decide

/-- C13, amended. Empty response data with a registered handler: for a response whose data
is empty and whose service has a registered handler, `interpretResponse` does not read
`data[0]` (the result is the same whatever lies outside the vector); it returns the
service-name line followed, with no data line, by the output of the handler on the empty
data. -/
theorem UDSClient.interpretResponse_empty (serviceHandlers : Handlers)
    (response : UDSMessage) (outside : Option Nat) (handler : Handler)
    (hempty : response.data = [])
    (hsome : serviceHandlers response.service = some handler) :
    UDSClient.interpretResponse serviceHandlers response outside = .ok
      ("Service: " ++ UDSClient.getServiceName response.service ++ " (0x"
        ++ hexByte response.service ++ ")\n" ++ handler []) := by
  rw [UDSClient.interpretResponse_handled serviceHandlers response outside handler hsome,
    hempty]
  simp only [if_true, String.append_empty]

/-- Witness of the amended C13: the handler that `main` registers for
`ReadDataByIdentifier` writes nothing for fewer than three bytes, so the report of an empty
response is the service-name line alone. -/
theorem UDSClient.interpretResponse_empty_witness :
    UDSClient.interpretResponse
      (UDSClient.addServiceHandler Handlers.empty ServiceID.ReadDataByIdentifier
        (fun data => if data.length ≥ 3 then "DID" else ""))
      (UDSMessage.mk ServiceID.ReadDataByIdentifier []) none
      = .ok "Service: ReadDataByIdentifier (0x22)\n" :=
  (UDSClient.interpretResponse_empty
    (UDSClient.addServiceHandler Handlers.empty ServiceID.ReadDataByIdentifier
      (fun data => if data.length ≥ 3 then "DID" else ""))
    (UDSMessage.mk ServiceID.ReadDataByIdentifier []) none
    (fun data => if data.length ≥ 3 then "DID" else "") rfl rfl).trans (by decide)

/-- C14. Handler override, last write wins: after `addServiceHandler(s, h2)` a response
with service `s` is reported as the service-name line, the data line (written when the
data is not empty) and then exactly `h2(data)`, with no default status text of its own;
this stays so after a later registration for another service; a handler `h1` registered
for `s` before `h2` is not used; a response with another service is interpreted as before
the registration. -/
theorem UDSClient.addServiceHandler_override (serviceHandlers : Handlers) (s other : Nat)
    (h1 h2 h3 : Handler) (data : List Nat) (outside : Option Nat) (hne : other ≠ s) :
    UDSClient.interpretResponse (UDSClient.addServiceHandler serviceHandlers s h2)
      (UDSMessage.mk s data) outside = .ok
        ("Service: " ++ UDSClient.getServiceName s ++ " (0x" ++ hexByte s ++ ")\n"
          ++ (if data = [] then "" else "Data: " ++ UDSClient.formatHex data ++ "\n")
          ++ h2 data) ∧
    UDSClient.interpretResponse
      (UDSClient.addServiceHandler (UDSClient.addServiceHandler serviceHandlers s h2) other h3)
      (UDSMessage.mk s data) outside
      = UDSClient.interpretResponse (UDSClient.addServiceHandler serviceHandlers s h2)
          (UDSMessage.mk s data) outside ∧
    UDSClient.addServiceHandler (UDSClient.addServiceHandler serviceHandlers s h1) s h2
      = UDSClient.addServiceHandler serviceHandlers s h2 ∧
    UDSClient.interpretResponse
      (UDSClient.addServiceHandler (UDSClient.addServiceHandler serviceHandlers s h1) s h2)
      (UDSMessage.mk s data) outside
      = UDSClient.interpretResponse (UDSClient.addServiceHandler serviceHandlers s h2)
          (UDSMessage.mk s data) outside ∧
    UDSClient.interpretResponse (UDSClient.addServiceHandler serviceHandlers s h2)
      (UDSMessage.mk other data) outside
      = UDSClient.interpretResponse serviceHandlers (UDSMessage.mk other data) outside := by
  have hlast : UDSClient.addServiceHandler
      (UDSClient.addServiceHandler serviceHandlers s h1) s h2
      = UDSClient.addServiceHandler serviceHandlers s h2 := by
    funext key
    simp only [UDSClient.addServiceHandler]
    split <;> rfl
  have hs : s ≠ other := fun h => hne h.symm
  refine ⟨?_, ?_, hlast, ?_, ?_⟩
  · exact UDSClient.interpretResponse_handled _ (UDSMessage.mk s data) outside h2
      (by simp only [UDSClient.addServiceHandler, if_true])
  · rw [UDSClient.interpretResponse_handled _ (UDSMessage.mk s data) outside h2
        (by simp only [UDSClient.addServiceHandler, hs, if_false, if_true]),
      UDSClient.interpretResponse_handled _ (UDSMessage.mk s data) outside h2
        (by simp only [UDSClient.addServiceHandler, if_true])]
  · rw [hlast]
  · simp only [UDSClient.interpretResponse, UDSClient.addServiceHandler, hne, if_false]

/-- Witness of C14: a `TesterPresent` handler registered after another one answers a
`TesterPresent` response that the default branch would call positive. -/
theorem UDSClient.addServiceHandler_override_witness :
    UDSClient.interpretResponse
      (UDSClient.addServiceHandler
        (UDSClient.addServiceHandler Handlers.empty ServiceID.TesterPresent (fun _ => "first"))
        ServiceID.TesterPresent (fun _ => "second"))
      (UDSMessage.mk ServiceID.TesterPresent [0x00]) none
      = .ok "Service: TesterPresent (0x3e)\nData: 00 \nsecond" :=
  ((UDSClient.addServiceHandler_override Handlers.empty ServiceID.TesterPresent
      ServiceID.ReadDataByIdentifier (fun _ => "first") (fun _ => "second") (fun _ => "third")
      [0x00] none (by decide)).2.2.2.1).trans
    (by decide)

/-- C18. Schema-specific request builders: for a 16-bit identifier `id`,
`readDataByIdentifier(id)` is service `0x22` with data `[id>>8, id&0xFF]`,
`writeDataByIdentifier(id, d)` is service `0x2E` with data `[id>>8, id&0xFF] ++ d`,
`routineControl(ty, id, o)` is service `0x31` with data `[ty, id>>8, id&0xFF] ++ o`, and
`createRequest(s, d)` is service `s` with data `d`, unchanged and unchecked. -/
theorem UDSClient.request_builders (id ty s : Nat) (d o : List Nat) (hid : id < 65536) :
    UDSClient.readDataByIdentifier id = UDSMessage.mk 0x22 [id >>> 8, id &&& 0xFF] ∧
    UDSClient.writeDataByIdentifier id d
      = UDSMessage.mk 0x2E ([id >>> 8, id &&& 0xFF] ++ d) ∧
    UDSClient.routineControl ty id o
      = UDSMessage.mk 0x31 ([ty, id >>> 8, id &&& 0xFF] ++ o) ∧
    UDSClient.createRequest s d = UDSMessage.mk s d := by
  have e1 : DoIP.toU8 ((id >>> 8) &&& 0xFF) = id >>> 8 := by
    rw [DoIP.shr_and_ff_eq, Nat.shiftRight_eq_div_pow]
    simp only [DoIP.toU8]
    omega
  have e2 : DoIP.toU8 (id &&& 0xFF) = id &&& 0xFF := by
    rw [DoIP.and_ff_eq_mod]
    simp only [DoIP.toU8]
    omega
  simp only [UDSClient.readDataByIdentifier, UDSClient.writeDataByIdentifier,
    UDSClient.routineControl, UDSClient.createRequest, ServiceID.ReadDataByIdentifier,
    ServiceID.WriteDataByIdentifier, ServiceID.RoutineControl, e1, e2, and_self]

/-- Witness of C18: the VIN identifier `0xF190` and the routine `0xFF00` of `main`. -/
theorem UDSClient.request_builders_witness :
    UDSClient.readDataByIdentifier 0xF190 = UDSMessage.mk 0x22 [0xF1, 0x90] ∧
    UDSClient.routineControl 0x01 0xFF00 [] = UDSMessage.mk 0x31 [0x01, 0xFF, 0x00] :=
  ⟨(UDSClient.request_builders 0xF190 0x01 0x22 [] [] (by decide)).1,
   (UDSClient.request_builders 0xFF00 0x01 0x22 [] [] (by decide)).2.2.1⟩

end UDS

/-! ## The codec on longer buffers -/

namespace DoIP

theorem exists_header (b : List Nat) (h8 : 8 ≤ b.length) :
    ∃ a0 a1 a2 a3 a4 a5 a6 a7 rest, b = a0 :: a1 :: a2 :: a3 :: a4 :: a5 :: a6 :: a7 :: rest := by
  rcases b with _ | ⟨a0, _ | ⟨a1, _ | ⟨a2, _ | ⟨a3, _ | ⟨a4, _ | ⟨a5, _ | ⟨a6, _ | ⟨a7, rest⟩⟩⟩⟩⟩⟩⟩⟩
  all_goals first
    | exact ⟨_, _, _, _, _, _, _, _, _, rfl⟩
    | (exfalso; simp only [List.length_cons, List.length_nil] at h8; omega)

/-- A buffer on which `deserialize` succeeds holds the header and the declared payload. -/
theorem Message.deserialize_ok_length (b : List Nat) (m : Message) (hb : Bytes b)
    (hm : Message.deserialize b = .ok m) :
    8 + (b.getD 4 0 * 16777216 + b.getD 5 0 * 65536 + b.getD 6 0 * 256 + b.getD 7 0)
      ≤ b.length := by
  by_cases h8 : b.length < 8
  · rw [Message.deserialize_eq_error_header b h8] at hm
    cases hm
  · by_cases hN : b.length
        < 8 + (b.getD 4 0 * 16777216 + b.getD 5 0 * 65536 + b.getD 6 0 * 256 + b.getD 7 0)
    · rw [Message.deserialize_eq_error_payload b hb (by omega) hN] at hm
      cases hm
    · omega

/-- C21. Encode undoes decode on the consumed prefix: when `deserialize` succeeds on a
buffer `b` of bytes, serializing the result gives the first `8 + N` bytes of `b`, `N` the
big-endian value of `b[4..7]`; it gives `b` itself when `b` has exactly `8 + N` bytes. -/
theorem Message.serialize_deserialize (b : List Nat) (m : Message) (hb : Bytes b)
    (hm : Message.deserialize b = .ok m) :
    m.serialize = b.take
      (8 + (b.getD 4 0 * 16777216 + b.getD 5 0 * 65536 + b.getD 6 0 * 256 + b.getD 7 0)) ∧
    (b.length
        = 8 + (b.getD 4 0 * 16777216 + b.getD 5 0 * 65536 + b.getD 6 0 * 256 + b.getD 7 0) →
      m.serialize = b) := by
  have hlen := Message.deserialize_ok_length b m hb hm
  have hpre : m.serialize = b.take
      (8 + (b.getD 4 0 * 16777216 + b.getD 5 0 * 65536 + b.getD 6 0 * 256 + b.getD 7 0)) := by
    rw [Message.deserialize_eq_ok b hb (by omega) hlen] at hm
    injection hm with hm
    subst hm
    obtain ⟨a0, a1, a2, a3, a4, a5, a6, a7, rest, rfl⟩ := exists_header b (by omega)
    have h2 : a2 < 256 := hb a2 (by simp only [List.mem_cons, true_or, or_true])
    have h3 : a3 < 256 := hb a3 (by simp only [List.mem_cons, true_or, or_true])
    have h4 : a4 < 256 := hb a4 (by simp only [List.mem_cons, true_or, or_true])
    have h5 : a5 < 256 := hb a5 (by simp only [List.mem_cons, true_or, or_true])
    have h6 : a6 < 256 := hb a6 (by simp only [List.mem_cons, true_or, or_true])
    have h7 : a7 < 256 := hb a7 (by simp only [List.mem_cons, true_or, or_true])
    rw [Message.serialize_eq]
    simp only [List.getD_cons_zero, List.getD_cons_succ, List.drop_succ_cons, List.drop_zero,
      List.cons_append, List.nil_append]
    rw [Nat.add_comm 8 (a4 * 16777216 + a5 * 65536 + a6 * 256 + a7)]
    simp only [List.take_succ_cons]
    have e2 : (a2 * 256 + a3) % 65536 / 256 % 256 = a2 := by omega
    have e3 : (a2 * 256 + a3) % 256 = a3 := by omega
    have e4 : (a4 * 16777216 + a5 * 65536 + a6 * 256 + a7) / 16777216 % 256 = a4 := by omega
    have e5 : (a4 * 16777216 + a5 * 65536 + a6 * 256 + a7) / 65536 % 256 = a5 := by omega
    have e6 : (a4 * 16777216 + a5 * 65536 + a6 * 256 + a7) / 256 % 256 = a6 := by omega
    have e7 : (a4 * 16777216 + a5 * 65536 + a6 * 256 + a7) % 256 = a7 := by omega
    rw [e2, e3, e4, e5, e6, e7]
  refine ⟨hpre, fun hex => ?_⟩
  rw [hpre, ← hex, List.take_length]

/-- Witness of C21 on an 11-byte buffer that declares a two-byte payload: the last byte
is not reproduced. -/
theorem Message.serialize_deserialize_witness :
    Message.deserialize [0x02, 0xFD, 0x80, 0x01, 0, 0, 0, 2, 7, 8, 9]
      = .ok (Message.mk 0x02 0xFD 0x8001 2 [7, 8]) ∧
    (Message.mk 0x02 0xFD 0x8001 2 [7, 8]).serialize
      = [0x02, 0xFD, 0x80, 0x01, 0, 0, 0, 2, 7, 8] :=
  ⟨by decide,
   (Message.serialize_deserialize [0x02, 0xFD, 0x80, 0x01, 0, 0, 0, 2, 7, 8, 9]
    (Message.mk 0x02 0xFD 0x8001 2 [7, 8]) (by decide) (by decide)).1⟩

/-- C22. Decode ignores trailing bytes: for a frame `f` whose fields hold values of their
types and whose `payloadLength` equals the number of payload bytes, and for every byte
sequence `extra`, `deserialize (f.serialize ++ extra)` succeeds and returns `f`; so two
buffers that differ only past offset `8 + payloadLength` decode to the same frame. -/
theorem Message.deserialize_serialize_append (f : Message) (extra other : List Nat)
    (hwf : f.WF) (hlen : f.payloadLength = f.payload.length) (hex : Bytes extra)
    (hot : Bytes other) :
    Message.deserialize (f.serialize ++ extra) = .ok f ∧
    Message.deserialize (f.serialize ++ extra) = Message.deserialize (f.serialize ++ other) := by
  have key : ∀ e : List Nat, Bytes e → Message.deserialize (f.serialize ++ e) = .ok f := by
    intro e he
    have hb : Bytes (f.serialize ++ e) := by
      intro x hx
      rcases List.mem_append.mp hx with hx | hx
      · exact Message.bytes_serialize f hwf x hx
      · exact he x hx
    have hs := Message.serialize_eq f
    obtain ⟨_, _, ht, hl, _⟩ := hwf
    have hN : f.payloadLength / 16777216 % 256 * 16777216
        + f.payloadLength / 65536 % 256 * 65536
        + f.payloadLength / 256 % 256 * 256 + f.payloadLength % 256 = f.payloadLength := by
      omega
    have hT : f.payloadType % 65536 / 256 % 256 * 256 + f.payloadType % 256
        = f.payloadType := by
      omega
    rw [Message.deserialize_eq_ok (f.serialize ++ e) hb]
    · rw [hs]
      simp only [List.cons_append, List.nil_append, List.getD_cons_zero, List.getD_cons_succ,
        List.drop_succ_cons, List.drop_zero, hN, hT]
      rw [hlen, List.take_left]
      cases f
      simp only at hlen
      simp only [hlen]
    · rw [List.length_append, Message.length_serialize]; omega
    · rw [List.length_append, Message.length_serialize, hs]
      simp only [List.cons_append, List.nil_append, List.getD_cons_zero, List.getD_cons_succ,
        hN]
      omega
  exact ⟨key extra hex, (key extra hex).trans (key other hot).symm⟩

/-- Witness of C22: the routing-activation request of `main` followed by three bytes of
a next frame. -/
theorem Message.deserialize_serialize_append_witness :
    Message.deserialize ((DoIPClient.routingActivationRequest 0x0E80).serialize
      ++ [0x02, 0xFD, 0x80]) = .ok (DoIPClient.routingActivationRequest 0x0E80) :=
  (Message.deserialize_serialize_append (DoIPClient.routingActivationRequest 0x0E80)
    [0x02, 0xFD, 0x80] [] (by decide) rfl (by decide) (by decide)).1

/-! ## Bounds on one call of `sendAndReceive` -/

theorem Impl.receiveMessage_recvs_le (tr : Transport) (w : World) :
    (Impl.receiveMessage tr w).2.recvs ≤ w.recvs + 2 := by
  unfold Impl.receiveMessage
  split
  · dsimp only; omega
  · dsimp only
    split
    · dsimp only; omega
    · split
      · dsimp only; omega
      · split <;> (dsimp only; omega)

/-- A pass through the `try` block makes at most one `poll` call and at most two `recv`
calls (one `receiveMessage`). -/
theorem Impl.attempt_counts (c : Impl) (tr : Transport) (message : Message) (w : World) :
    (Impl.attempt c tr message w).2.polls ≤ w.polls + 1 ∧
    (Impl.attempt c tr message w).2.recvs ≤ w.recvs + 2 := by
  have hr := Impl.receiveMessage_world tr
    { sent := w.sent ++ [message.serialize], polls := w.polls + 1, recvs := w.recvs,
      sleeps := w.sleeps }
  have hc := Impl.receiveMessage_recvs_le tr
    { sent := w.sent ++ [message.serialize], polls := w.polls + 1, recvs := w.recvs,
      sleeps := w.sleeps }
  unfold Impl.attempt Impl.sendMessage
  dsimp only
  split
  · rename_i e w1 heq
    split at heq <;> cases heq
    dsimp only
    omega
  · rename_i u w1 heq
    have hw : w1 = { w with sent := w.sent ++ [message.serialize] } := by
      split at heq <;> cases heq
      rfl
    subst hw
    dsimp only
    split
    · split
      · split
        · rename_i e w3 h3
          have h := congrArg Prod.snd h3
          dsimp only at h
          rw [← h, hr.2.2]
          exact ⟨Nat.le_refl _, hc⟩
        · rename_i r w3 h3
          have h := congrArg Prod.snd h3
          dsimp only at h
          rw [← h, hr.2.2]
          exact ⟨Nat.le_refl _, hc⟩
      · dsimp only
        omega
    · split <;> (dsimp only; omega)

theorem Impl.sendAndReceiveLoop_cons_ok (c : Impl) (tr : Transport) (message : Message)
    (attempt : Nat) (rest : List Nat) (w w1 : World) (r : Message)
    (h : Impl.attempt c tr message w = (.ok (some r), w1)) :
    Impl.sendAndReceiveLoop c tr message (attempt :: rest) w = (.ok r, w1) := by
  rw [Impl.sendAndReceiveLoop, h]

theorem Impl.sendAndReceiveLoop_cons_none (c : Impl) (tr : Transport) (message : Message)
    (attempt : Nat) (rest : List Nat) (w w1 : World)
    (h : Impl.attempt c tr message w = (.ok none, w1)) :
    Impl.sendAndReceiveLoop c tr message (attempt :: rest) w
      = Impl.sendAndReceiveLoop c tr message rest w1 := by
  rw [Impl.sendAndReceiveLoop, h]

theorem Impl.sendAndReceiveLoop_cons_last (c : Impl) (tr : Transport) (message : Message)
    (attempt : Nat) (rest : List Nat) (w w1 : World) (what : String)
    (h : Impl.attempt c tr message w = (.error (.connection what), w1))
    (hlast : (attempt : Int) = c.retryCount - 1) :
    Impl.sendAndReceiveLoop c tr message (attempt :: rest) w
      = (.error (.connection what), w1) := by
  rw [Impl.sendAndReceiveLoop, h]
  simp only [hlast, if_true]

theorem Impl.sendAndReceiveLoop_cons_retry (c : Impl) (tr : Transport) (message : Message)
    (attempt : Nat) (rest : List Nat) (w w1 : World) (what : String)
    (h : Impl.attempt c tr message w = (.error (.connection what), w1))
    (hnot : ¬ ((attempt : Int) = c.retryCount - 1)) :
    Impl.sendAndReceiveLoop c tr message (attempt :: rest) w
      = Impl.sendAndReceiveLoop c tr message rest w1.sleep := by
  rw [Impl.sendAndReceiveLoop, h]
  simp only [hnot, if_false]

theorem Impl.sendAndReceiveLoop_cons_runtime (c : Impl) (tr : Transport) (message : Message)
    (attempt : Nat) (rest : List Nat) (w w1 : World) (what : String)
    (h : Impl.attempt c tr message w = (.error (.runtime what), w1)) :
    Impl.sendAndReceiveLoop c tr message (attempt :: rest) w
      = (.error (.runtime what), w1) := by
  rw [Impl.sendAndReceiveLoop, h]

/-- The loop over the attempt numbers `s, .., s + n - 1`, the last of which is
`retryCount - 1`: some number `j <= n` of attempts is made, at least one if `n > 0`; the
request is handed to `send` `j` times, at most `j - 1` sleeps are taken, at most `j` `poll`
calls and `2 * j` `recv` calls are made, and the loop ends in the world the last attempt
leaves, with the frame that attempt returned if it returns one. -/
theorem Impl.sendAndReceiveLoop_bounds (c : Impl) (tr : Transport) (message : Message)
    (n : Nat) :
    ∀ (s : Nat) (w : World), (n = 0 ∨ c.retryCount = ((s + n : Nat) : Int)) →
      ∃ j, j ≤ n ∧ (0 < n → 0 < j) ∧
        (Impl.sendAndReceiveLoop c tr message (List.range' s n) w).2.sent
          = w.sent ++ List.replicate j message.serialize ∧
        (Impl.sendAndReceiveLoop c tr message (List.range' s n) w).2.sleeps
          ≤ w.sleeps + (j - 1) ∧
        (Impl.sendAndReceiveLoop c tr message (List.range' s n) w).2.polls ≤ w.polls + j ∧
        (Impl.sendAndReceiveLoop c tr message (List.range' s n) w).2.recvs
          ≤ w.recvs + 2 * j ∧
        (0 < j → ∃ v,
          (Impl.sendAndReceiveLoop c tr message (List.range' s n) w).2
            = (Impl.attempt c tr message v).2 ∧
          ∀ r, (Impl.sendAndReceiveLoop c tr message (List.range' s n) w).1 = .ok r →
            (Impl.attempt c tr message v).1 = .ok (some r)) := by
  induction n with
  | zero =>
    intro s w _
    refine ⟨0, Nat.le_refl 0, fun h => h, ?_, ?_, ?_, ?_, fun h => absurd h (Nat.lt_irrefl 0)⟩
    · simp only [List.range', Impl.sendAndReceiveLoop, List.replicate_zero, List.append_nil]
    · simp only [List.range', Impl.sendAndReceiveLoop]; omega
    · simp only [List.range', Impl.sendAndReceiveLoop]; omega
    · simp only [List.range', Impl.sendAndReceiveLoop]; omega
  | succ n ih =>
    intro s w hs
    have hN : c.retryCount = ((s + (n + 1) : Nat) : Int) := hs.resolve_left (by omega)
    have hrec : n = 0 ∨ c.retryCount = ((s + 1 + n : Nat) : Int) := by
      right
      rw [hN]
      congr 1
      omega
    obtain ⟨a1, a2⟩ := Impl.attempt_world c tr message w
    obtain ⟨a3, a4⟩ := Impl.attempt_counts c tr message w
    rw [show List.range' s (n + 1) = s :: List.range' (s + 1) n from rfl]
    rcases hA : Impl.attempt c tr message w with ⟨res, w1⟩
    rw [hA] at a1 a2 a3 a4
    dsimp only at a1 a2 a3 a4
    have stop : ∀ out : Except Error Message,
        (∀ r, out = .ok r → res = .ok (some r)) →
        ∃ j, j ≤ n + 1 ∧ (0 < n + 1 → 0 < j) ∧
          (out, w1).2.sent = w.sent ++ List.replicate j message.serialize ∧
          (out, w1).2.sleeps ≤ w.sleeps + (j - 1) ∧
          (out, w1).2.polls ≤ w.polls + j ∧
          (out, w1).2.recvs ≤ w.recvs + 2 * j ∧
          (0 < j → ∃ v, (out, w1).2 = (Impl.attempt c tr message v).2 ∧
            ∀ r, (out, w1).1 = .ok r → (Impl.attempt c tr message v).1 = .ok (some r)) := by
      intro out hout
      refine ⟨1, by omega, fun _ => by omega, ?_, ?_, ?_, ?_, fun _ => ⟨w, ?_, ?_⟩⟩
      · exact a1
      · dsimp only; omega
      · exact a3
      · exact a4
      · rw [hA]
      · intro r hr
        rw [hA]
        exact hout r hr
    have cont : ∀ w2 : World, (w2 = w1 ∨ (w2 = w1.sleep ∧ 0 < n)) →
        ∃ j, j ≤ n + 1 ∧ (0 < n + 1 → 0 < j) ∧
          (Impl.sendAndReceiveLoop c tr message (List.range' (s + 1) n) w2).2.sent
            = w.sent ++ List.replicate j message.serialize ∧
          (Impl.sendAndReceiveLoop c tr message (List.range' (s + 1) n) w2).2.sleeps
            ≤ w.sleeps + (j - 1) ∧
          (Impl.sendAndReceiveLoop c tr message (List.range' (s + 1) n) w2).2.polls
            ≤ w.polls + j ∧
          (Impl.sendAndReceiveLoop c tr message (List.range' (s + 1) n) w2).2.recvs
            ≤ w.recvs + 2 * j ∧
          (0 < j → ∃ v,
            (Impl.sendAndReceiveLoop c tr message (List.range' (s + 1) n) w2).2
              = (Impl.attempt c tr message v).2 ∧
            ∀ r, (Impl.sendAndReceiveLoop c tr message (List.range' (s + 1) n) w2).1 = .ok r →
              (Impl.attempt c tr message v).1 = .ok (some r)) := by
      intro w2 hw2
      obtain ⟨j, hj, hpos, hsent, hsl, hpo, hre, hv⟩ := ih (s + 1) w2 hrec
      have e1 : w2.sent = w1.sent := by
        rcases hw2 with h | ⟨h, _⟩ <;> simp only [h, World.sleep]
      have e2 : w2.polls = w1.polls := by
        rcases hw2 with h | ⟨h, _⟩ <;> simp only [h, World.sleep]
      have e3 : w2.recvs = w1.recvs := by
        rcases hw2 with h | ⟨h, _⟩ <;> simp only [h, World.sleep]
      have e4 : w2.sleeps + (j - 1) ≤ w.sleeps + j := by
        rcases hw2 with h | ⟨h, hn⟩
        · rw [h, a2]; omega
        · have hjp := hpos hn
          rw [h]
          simp only [World.sleep, a2]
          omega
      refine ⟨j + 1, by omega, fun _ => by omega, ?_, ?_, ?_, ?_, fun _ => ?_⟩
      · rw [hsent, e1, a1, List.append_assoc, List.singleton_append, ← List.replicate_succ]
      · have : j + 1 - 1 = j := by omega
        rw [this]
        omega
      · omega
      · omega
      · by_cases hj0 : 0 < j
        · exact hv hj0
        · have hn0 : n = 0 := by
            by_contra hne
            exact hj0 (hpos (by omega))
          subst hn0
          have hw : w2 = w1 := by
            rcases hw2 with h | ⟨_, h⟩
            · exact h
            · exact absurd h (Nat.lt_irrefl 0)
          subst hw
          refine ⟨w, ?_, ?_⟩
          · rw [hA]
            simp only [List.range', Impl.sendAndReceiveLoop]
          · intro r hr
            simp only [List.range', Impl.sendAndReceiveLoop] at hr
            cases hr
    rcases res with e | o
    · cases e with
      | runtime what =>
        rw [Impl.sendAndReceiveLoop_cons_runtime c tr message s _ w w1 what hA]
        exact stop _ (fun r hr => by cases hr)
      | connection what =>
        by_cases hlast : (s : Int) = c.retryCount - 1
        · rw [Impl.sendAndReceiveLoop_cons_last c tr message s _ w w1 what hA hlast]
          exact stop _ (fun r hr => by cases hr)
        · rw [Impl.sendAndReceiveLoop_cons_retry c tr message s _ w w1 what hA hlast]
          have hn : 0 < n := by
            by_contra hne
            apply hlast
            rw [hN]
            have : n = 0 := by omega
            subst this
            push_cast
            omega
          exact cont w1.sleep (Or.inr ⟨rfl, hn⟩)
    · cases o with
      | none =>
        rw [Impl.sendAndReceiveLoop_cons_none c tr message s _ w w1 hA]
        exact cont w1 (Or.inl rfl)
      | some r =>
        rw [Impl.sendAndReceiveLoop_cons_ok c tr message s _ w w1 r hA]
        exact stop _ (fun r2 hr => by
          injection hr with hr
          rw [hr])

/-- C23, as stated, fails: with `retryCount = 2` on a socket that accepts every `send`,
reports readable on every `poll` and fails every `recv`, `receiveMessage` is called on both
attempts (each stops at its first `recv`), so two receives are attempted in one call of
`sendAndReceive`, not at most one. -/
theorem DoIPClient.sendAndReceive_two_receives :
    (Impl.attempt (Impl.mk "192.168.1.10" 13400 3 true 5000 2)
      (Transport.mk (fun _ _ => 8) (fun _ _ => (1, 1)) (fun _ _ => none))
      DoIPClient.vehicleIdentificationRequest (World.mk [] 0 0 0)).2.recvs = 1 ∧
    DoIPClient.sendAndReceive (Impl.mk "192.168.1.10" 13400 3 true 5000 2)
      (Transport.mk (fun _ _ => 8) (fun _ _ => (1, 1)) (fun _ _ => none))
      DoIPClient.vehicleIdentificationRequest (World.mk [] 0 0 0)
      = (.error (.connection "Failed to receive message header"),
          World.mk [DoIPClient.vehicleIdentificationRequest.serialize,
            DoIPClient.vehicleIdentificationRequest.serialize] 2 2 1) := by
  decide

/-- C23, amended. Bounded attempts: for every `retryCount` and every transport, one call
of `sendAndReceive` on a connected client hands the request to `send` `j` times for some
`j <= max(retryCount, 0)`, takes at most `max(retryCount - 1, 0)` sleeps, and makes at
most one `poll` and one `receiveMessage` (two `recv` calls) per `send`; if any attempt was
made, the call ends in the world its last attempt leaves, so nothing is sent and no sleep
is taken after the attempt that returned the response or threw the final error, and a
returned frame is the one that last attempt received. -/
theorem DoIPClient.sendAndReceive_bounds (c : Impl) (tr : Transport) (message : Message)
    (w : World) (hconn : c.connected = true) :
    (DoIPClient.sendAndReceive c tr message w).2.sent.length
      ≤ w.sent.length + c.retryCount.toNat ∧
    (DoIPClient.sendAndReceive c tr message w).2.sleeps
      ≤ w.sleeps + (c.retryCount - 1).toNat ∧
    (DoIPClient.sendAndReceive c tr message w).2.polls ≤ w.polls + c.retryCount.toNat ∧
    (DoIPClient.sendAndReceive c tr message w).2.recvs
      ≤ w.recvs + 2 * c.retryCount.toNat ∧
    ∃ j, j ≤ c.retryCount.toNat ∧
      (DoIPClient.sendAndReceive c tr message w).2.sent
        = w.sent ++ List.replicate j message.serialize ∧
      (DoIPClient.sendAndReceive c tr message w).2.sleeps ≤ w.sleeps + (j - 1) ∧
      (DoIPClient.sendAndReceive c tr message w).2.polls ≤ w.polls + j ∧
      (DoIPClient.sendAndReceive c tr message w).2.recvs ≤ w.recvs + 2 * j ∧
      (0 < j → ∃ v,
        (DoIPClient.sendAndReceive c tr message w).2 = (Impl.attempt c tr message v).2 ∧
        ∀ r, (DoIPClient.sendAndReceive c tr message w).1 = .ok r →
          (Impl.attempt c tr message v).1 = .ok (some r)) := by
  have hrun : DoIPClient.sendAndReceive c tr message w
      = Impl.sendAndReceiveLoop c tr message (List.range' 0 c.retryCount.toNat) w := by
    simp only [DoIPClient.sendAndReceive, DoIPClient.ensureConnected, hconn,
      Impl.sendAndReceive, List.range_eq_range']
    rfl
  have hs : c.retryCount.toNat = 0 ∨ c.retryCount = ((0 + c.retryCount.toNat : Nat) : Int) := by
    by_cases h0 : c.retryCount ≤ 0
    · exact Or.inl (Int.toNat_eq_zero.mpr h0)
    · right
      rw [Nat.zero_add, Int.toNat_of_nonneg (by omega)]
  obtain ⟨j, hj, _, hsent, hsl, hpo, hre, hv⟩ :=
    Impl.sendAndReceiveLoop_bounds c tr message c.retryCount.toNat 0 w hs
  rw [← hrun] at hsent hsl hpo hre hv
  have hsl2 : j - 1 ≤ (c.retryCount - 1).toNat := by omega
  refine ⟨?_, ?_, ?_, ?_, j, hj, hsent, hsl, hpo, hre, hv⟩
  · rw [hsent, List.length_append, List.length_replicate]
    omega
  · omega
  · omega
  · omega

/-- Witness of the amended C23 on the client and socket of its counterexample: at most two
buffers are sent, at most one sleep is taken and at most four `recv` calls are made. -/
theorem DoIPClient.sendAndReceive_bounds_witness :
    (DoIPClient.sendAndReceive (Impl.mk "192.168.1.10" 13400 3 true 5000 2)
      (Transport.mk (fun _ _ => 8) (fun _ _ => (1, 1)) (fun _ _ => none))
      DoIPClient.vehicleIdentificationRequest (World.mk [] 0 0 0)).2.sent.length ≤ 2 ∧
    (DoIPClient.sendAndReceive (Impl.mk "192.168.1.10" 13400 3 true 5000 2)
      (Transport.mk (fun _ _ => 8) (fun _ _ => (1, 1)) (fun _ _ => none))
      DoIPClient.vehicleIdentificationRequest (World.mk [] 0 0 0)).2.sleeps ≤ 1 ∧
    (DoIPClient.sendAndReceive (Impl.mk "192.168.1.10" 13400 3 true 5000 2)
      (Transport.mk (fun _ _ => 8) (fun _ _ => (1, 1)) (fun _ _ => none))
      DoIPClient.vehicleIdentificationRequest (World.mk [] 0 0 0)).2.recvs ≤ 4 := by
  have h := DoIPClient.sendAndReceive_bounds (Impl.mk "192.168.1.10" 13400 3 true 5000 2)
    (Transport.mk (fun _ _ => 8) (fun _ _ => (1, 1)) (fun _ _ => none))
    DoIPClient.vehicleIdentificationRequest (World.mk [] 0 0 0) rfl
  exact ⟨h.1, h.2.1, h.2.2.2.1⟩

/-! ## A readiness event without readable data -/

/-- An attempt whose `send` is accepted and whose `poll` returns a positive result
without `POLLIN` leaves the `try` block without a result and without an exception. -/
theorem Impl.attempt_no_pollin (c : Impl) (tr : Transport) (message : Message) (w : World)
    (hsend : 0 ≤ tr.send w.sent.length message.serialize)
    (hpoll : 0 < (tr.poll w.polls (toInt32 c.responseTimeout)).1)
    (hclr : (tr.poll w.polls (toInt32 c.responseTimeout)).2 &&& POLLIN = 0) :
    Impl.attempt c tr message w
      = (.ok none, { w with sent := w.sent ++ [message.serialize], polls := w.polls + 1 }) := by
  have hs : ¬ tr.send w.sent.length message.serialize < 0 := by omega
  simp only [Impl.attempt, Impl.sendMessage, hs, if_false, gt_iff_lt, hpoll, if_true, hclr,
    ne_eq, not_true_eq_false]

/-- The loop when each of its `n` attempts sees a positive `poll` result without
`POLLIN`. -/
theorem Impl.sendAndReceiveLoop_no_pollin (c : Impl) (tr : Transport) (message : Message)
    (n : Nat) :
    ∀ (s : Nat) (w : World),
      (∀ i, i < n →
        0 ≤ tr.send (w.sent.length + i) message.serialize ∧
        0 < (tr.poll (w.polls + i) (toInt32 c.responseTimeout)).1 ∧
        (tr.poll (w.polls + i) (toInt32 c.responseTimeout)).2 &&& POLLIN = 0) →
      Impl.sendAndReceiveLoop c tr message (List.range' s n) w
        = (.error (.connection "Max retry attempts reached"),
            { w with sent := w.sent ++ List.replicate n message.serialize,
                     polls := w.polls + n }) := by
  induction n with
  | zero =>
    intro s w _
    simp only [List.range', Impl.sendAndReceiveLoop, List.replicate_zero, List.append_nil,
      Nat.add_zero]
  | succ n ih =>
    intro s w h
    obtain ⟨h1, h2, h3⟩ := h 0 (by omega)
    rw [Nat.add_zero] at h1 h2 h3
    have hA := Impl.attempt_no_pollin c tr message w h1 h2 h3
    rw [show List.range' s (n + 1) = s :: List.range' (s + 1) n from rfl,
      Impl.sendAndReceiveLoop_cons_none c tr message s _ w _ hA]
    rw [ih (s + 1) { w with sent := w.sent ++ [message.serialize], polls := w.polls + 1 }
      (fun i hi => by
        have hi1 := h (i + 1) (by omega)
        have e1 : (w.sent ++ [message.serialize]).length + i = w.sent.length + (i + 1) := by
          rw [List.length_append, List.length_singleton]
          omega
        have e2 : w.polls + 1 + i = w.polls + (i + 1) := by omega
        dsimp only
        rw [e1, e2]
        exact hi1)]
    have e3 : w.polls + 1 + n = w.polls + (n + 1) := by omega
    simp only [List.append_assoc, List.singleton_append, ← List.replicate_succ, e3]

/-- C24. Readiness event without readable data: an attempt whose `send` is accepted and
whose `poll` returns a positive result with `POLLIN` clear throws nothing, and the loop
goes on to the next attempt from the world that attempt leaves, without a sleep and
without a `recv`; when this happens on each of the `N = retryCount` attempts of a connected
client, `sendAndReceive` hands the request to `send` exactly `N` times, takes no sleep,
makes no `recv` call and fails with the `ConnectionError` "Max retry attempts reached". -/
theorem DoIPClient.sendAndReceive_no_pollin (c : Impl) (tr : Transport) (message : Message)
    (w : World) (N : Nat) :
    ((0 ≤ tr.send w.sent.length message.serialize ∧
      0 < (tr.poll w.polls (toInt32 c.responseTimeout)).1 ∧
      (tr.poll w.polls (toInt32 c.responseTimeout)).2 &&& POLLIN = 0) →
      Impl.attempt c tr message w
        = (.ok none, { w with sent := w.sent ++ [message.serialize], polls := w.polls + 1 }) ∧
      ∀ attempt rest, Impl.sendAndReceiveLoop c tr message (attempt :: rest) w
        = Impl.sendAndReceiveLoop c tr message rest
            { w with sent := w.sent ++ [message.serialize], polls := w.polls + 1 }) ∧
    (c.connected = true → c.retryCount = N → 1 ≤ N →
      (∀ i, i < N →
        0 ≤ tr.send (w.sent.length + i) message.serialize ∧
        0 < (tr.poll (w.polls + i) (toInt32 c.responseTimeout)).1 ∧
        (tr.poll (w.polls + i) (toInt32 c.responseTimeout)).2 &&& POLLIN = 0) →
      DoIPClient.sendAndReceive c tr message w
        = (.error (.connection "Max retry attempts reached"),
            { w with sent := w.sent ++ List.replicate N message.serialize,
                     polls := w.polls + N }) ∧
      (DoIPClient.sendAndReceive c tr message w).2.sent.length = w.sent.length + N ∧
      (DoIPClient.sendAndReceive c tr message w).2.sleeps = w.sleeps ∧
      (DoIPClient.sendAndReceive c tr message w).2.recvs = w.recvs) := by
  constructor
  · rintro ⟨h1, h2, h3⟩
    have hA := Impl.attempt_no_pollin c tr message w h1 h2 h3
    exact ⟨hA, fun attempt rest =>
      Impl.sendAndReceiveLoop_cons_none c tr message attempt rest w _ hA⟩
  · intro hconn hN _ hall
    have hrun : DoIPClient.sendAndReceive c tr message w
        = (.error (.connection "Max retry attempts reached"),
            { w with sent := w.sent ++ List.replicate N message.serialize,
                     polls := w.polls + N }) := by
      simp only [DoIPClient.sendAndReceive, DoIPClient.ensureConnected, hconn,
        Impl.sendAndReceive, hN, Int.toNat_ofNat, List.range_eq_range']
      exact Impl.sendAndReceiveLoop_no_pollin c tr message N 0 w hall
    refine ⟨hrun, ?_, ?_, ?_⟩
    · rw [hrun]
      simp only [List.length_append, List.length_replicate]
    · rw [hrun]
    · rw [hrun]

/-- Witness of C24 with `retryCount = 3` on a socket whose `poll` reports only `POLLHUP`
(`0x0010`): three buffers sent, three `poll` calls, no `recv`, no sleep. -/
theorem DoIPClient.sendAndReceive_no_pollin_witness :
    DoIPClient.sendAndReceive (Impl.mk "192.168.1.10" 13400 3 true 5000 3)
      (Transport.mk (fun _ _ => 8) (fun _ _ => (1, 0x0010)) (fun _ _ => none))
      DoIPClient.vehicleIdentificationRequest (World.mk [] 0 0 0)
      = (.error (.connection "Max retry attempts reached"),
          World.mk (List.replicate 3 DoIPClient.vehicleIdentificationRequest.serialize) 3 0 0) :=
  ((DoIPClient.sendAndReceive_no_pollin (Impl.mk "192.168.1.10" 13400 3 true 5000 3)
    (Transport.mk (fun _ _ => 8) (fun _ _ => (1, 0x0010)) (fun _ _ => none))
    DoIPClient.vehicleIdentificationRequest (World.mk [] 0 0 0) 3).2 rfl rfl (by decide)
    (fun _ _ => ⟨show (0 : Int) ≤ 8 by decide, show (0 : Int) < 1 by decide,
      show 0x0010 &&& POLLIN = 0 by decide⟩)).1

end DoIP
